import Mathlib

/-!
Verification development for the KK mobile client (IoT water monitoring).

This file gives a shallow embedding, in Lean 4, of the state-bearing parts of
the repository that the specification talks about:

* the leak / low-battery alert derivation of `src/DeviceDataContext.js`
  (`handleLeakDetection`, `handleLowBatteryDetection`, `alertCounts`);
* the duplicate battery-alert path of `src/batteryMonitorService.js`
  (`handleBatteryUpdate` / `handleLowBattery` with its 24 h cooldown);
* the `deviceService` operations of `src/deviceService.js`, modelled against a
  JSON-like database state with injectable backend failures;
* the listener registry of `DeviceDataContext` (`setupDeviceListeners`
  snapshot processing, `cleanupAllListeners`, `handleAppStateChange`);
* the displayed-status staleness derivation (`DeviceDataContext.js` device
  info listener).

JavaScript numbers are modelled as rationals, JS strings as Lean strings
(`List Char` where character-level processing such as `String.prototype.split`
matters), and `undefined` as `Option.none`.  JS truthiness (`x || d`, `!x`) is
modelled explicitly: `none`, `0`, and `""` are falsy.
-/

namespace KK

/-- JSON-like value as stored in the realtime database and as returned by the
`deviceService` operations (JS object literals). -/
inductive Val : Type where
  | str (s : String)
  | num (q : ℚ)
  | bool (b : Bool)
  | null
  | arr (elems : List Val)
  | obj (fields : List (String × Val))

/-- JS truthiness of a defined value: `""`, `0`, `false` and `null` are falsy. -/
def Val.truthy : Val → Bool
  | .str s => !(s == "")
  | .num q => !(q == 0)
  | .bool b => b
  | .null => false
  | .arr _ => true
  | .obj _ => true

/-- JS `x || d` for a possibly-undefined value `x`. -/
def jsOrVal (o : Option Val) (d : Val) : Val :=
  match o with
  | some v => if v.truthy then v else d
  | none => d

/-- JS `x || d` on numbers (`0` and `undefined` are falsy). -/
def jsOrQ (o : Option ℚ) (d : ℚ) : ℚ :=
  match o with
  | some v => if v == 0 then d else v
  | none => d

/-- JS `x || d` on strings (`""` and `undefined` are falsy). -/
def jsOrStr (o : Option String) (d : String) : String :=
  match o with
  | some s => if s == "" then d else s
  | none => d

/-- JS falsiness of a possibly-absent numeric map entry
(`!m[k]`: absent or `0`). -/
def qEntryFalsy (t : Option ℚ) : Bool :=
  match t with
  | none => true
  | some v => v == 0

/-- JS falsiness of a possibly-absent timestamp map entry. -/
def natEntryFalsy (t : Option ℕ) : Bool :=
  match t with
  | none => true
  | some v => v == 0

/-- JS comparison `m[k] > 25` (absent entry compares false). -/
def qEntryGt25 (t : Option ℚ) : Bool :=
  match t with
  | none => false
  | some v => decide (v > 25)

/-- The leak-detection flow threshold: the JS literal `0.5` L/min, i.e. the
rational one half. -/
def leakFlowThreshold : ℚ := mkRat 1 2

/-! ## DeviceDataContext.js: alert derivation

`alertTrackerRef.current` is a per-device map; the battery entry (key
`deviceId_battery`) stores the battery level at alert time, the leak entry
(key `deviceId_leak`) stores `Date.now()` at alert time.  Each handler is
embedded as a step function from the device's tracker entry and the current
reading to `(alertCreated, newTrackerEntry)`. -/

/-- Step function of `handleLowBatteryDetection` (DeviceDataContext.js
lines 99-127) for one device: `batteryLevel = device.batteryPercentage || 0`;
a low-battery alert fires when `batteryLevel < 20 && batteryLevel > 0` and
`!tracker || tracker > 25`, storing the level in the tracker; the tracker is
deleted when `batteryLevel >= 25`. -/
def handleLowBatteryDetection (tracker : Option ℚ) (batteryPercentage : Option ℚ) :
    Bool × Option ℚ :=
  let batteryLevel := jsOrQ batteryPercentage 0
  if batteryLevel < 20 ∧ batteryLevel > 0 then
    if qEntryFalsy tracker || qEntryGt25 tracker then
      (true, some batteryLevel)
    else
      (false, tracker)
  else if batteryLevel ≥ 25 then
    (false, none)
  else
    (false, tracker)

/-- Step function of `handleLeakDetection` (DeviceDataContext.js lines 62-96)
for one device: `flowRate = device.flowRate || 0`,
`valveState = device.valveState || 'UNKNOWN'`; a leak alert fires when
`flowRate > 0.5 && valveState === 'CLOSED'` and the tracker entry is falsy,
storing `Date.now()`; the entry is deleted when it is truthy, the leak
condition fails, and `flowRate <= 0.5 || valveState === 'OPEN'`. -/
def handleLeakDetection (now : ℕ) (tracker : Option ℕ)
    (flowRate : Option ℚ) (valveState : Option String) : Bool × Option ℕ :=
  let fr := jsOrQ flowRate 0
  let vs := jsOrStr valveState "UNKNOWN"
  if fr > leakFlowThreshold ∧ vs = "CLOSED" then
    if natEntryFalsy tracker then
      (true, some now)
    else
      (false, tracker)
  else
    if (!natEntryFalsy tracker) ∧ (fr ≤ leakFlowThreshold ∨ vs = "OPEN") then
      (false, none)
    else
      (false, tracker)

/-- Run `handleLowBatteryDetection` over a stream of battery readings for one
device, starting from tracker entry `t`; returns the final tracker entry and
the per-reading alert-creation flags. -/
def lowBatteryProcess (t : Option ℚ) : List (Option ℚ) → Option ℚ × List Bool
  | [] => (t, [])
  | r :: rest =>
    let step := handleLowBatteryDetection t r
    let tail := lowBatteryProcess step.2 rest
    (tail.1, step.1 :: tail.2)

/-- Tracker entry after a stream of battery readings, from a fresh tracker. -/
def lowBatteryTrackerAfter (rs : List (Option ℚ)) : Option ℚ :=
  (lowBatteryProcess none rs).1

/-- Alert-creation flags of `handleLowBatteryDetection` over a stream of
battery readings, from a fresh tracker. -/
def lowBatteryAlerts (rs : List (Option ℚ)) : List Bool :=
  (lowBatteryProcess none rs).2

/-- One leak-detection input: the wall clock (`Date.now()`) together with the
streamed `flowRate` and `valveState` fields. -/
structure LeakReading where
  now : ℕ
  flowRate : Option ℚ
  valveState : Option String

/-- Run `handleLeakDetection` over a stream of readings for one device. -/
def leakProcess (t : Option ℕ) : List LeakReading → Option ℕ × List Bool
  | [] => (t, [])
  | r :: rest =>
    let step := handleLeakDetection r.now t r.flowRate r.valveState
    let tail := leakProcess step.2 rest
    (tail.1, step.1 :: tail.2)

/-- Leak tracker entry after a stream of readings, from a fresh tracker. -/
def leakTrackerAfter (rs : List LeakReading) : Option ℕ :=
  (leakProcess none rs).1

/-! ## DeviceDataContext.js: aggregate alert counts -/

/-- The device fields that `alertCounts` reads. -/
structure DeviceView where
  batteryPercentage : Option ℚ
  batteryLevel : Option ℚ
  flowRate : Option ℚ
  valveState : Option String
  status : Option String

/-- Result of the `alertCounts` reduce. -/
structure AlertCounts where
  lowBattery : ℕ
  leak : ℕ
  offline : ℕ
deriving DecidableEq

/-- One step of the `alertCounts` reduce (DeviceDataContext.js lines 449-462):
`batteryLevel = device.batteryPercentage || device.batteryLevel || 0`,
`flowRate = device.flowRate || 0`, `valveState = device.valveState ||
'UNKNOWN'`, `status = device.status?.toLowerCase() || 'unknown'`. -/
def alertCountsStep (c : AlertCounts) (d : DeviceView) : AlertCounts :=
  let batteryLevel := jsOrQ d.batteryPercentage (jsOrQ d.batteryLevel 0)
  let flowRate := jsOrQ d.flowRate 0
  let valveState := jsOrStr d.valveState "UNKNOWN"
  let status :=
    match d.status with
    | some s => jsOrStr (some s.toLower) "unknown"
    | none => "unknown"
  { lowBattery := if batteryLevel < 20 ∧ batteryLevel > 0 then c.lowBattery + 1 else c.lowBattery
    leak := if flowRate > leakFlowThreshold ∧ valveState = "CLOSED" then c.leak + 1 else c.leak
    offline := if status = "offline" then c.offline + 1 else c.offline }

/-- The `alertCounts` aggregate over the device list. -/
def alertCounts (ds : List DeviceView) : AlertCounts :=
  ds.foldl alertCountsStep ⟨0, 0, 0⟩

/-! ## Spec-side stateless threshold predicates

The specification describes the leak / low-battery alert as "a derived
boolean computed client-side by comparing streamed telemetry fields against
fixed thresholds; not a stateful algorithm".  The following two definitions
follow those words (per-reading threshold comparison, no carried state); they
are compared with the stateful handlers above in the refinement claims. -/

/-- Spec-described stateless low-battery flag: the fixed-threshold comparison
applied to a single reading. -/
def specLowBatteryFlag (batteryPercentage : Option ℚ) : Bool :=
  let b := jsOrQ batteryPercentage 0
  decide (b < 20 ∧ b > 0)

/-- Spec-described stateless leak flag: the fixed-threshold comparison applied
to a single reading. -/
def specLeakFlag (flowRate : Option ℚ) (valveState : Option String) : Bool :=
  decide (jsOrQ flowRate 0 > leakFlowThreshold ∧ jsOrStr valveState "UNKNOWN" = "CLOSED")

/-! ## batteryMonitorService.js: the duplicate battery-alert path

`handleBatteryUpdate` (lines 28-54) forwards every reading with
`batteryPercentage < 20` to `handleLowBattery` (lines 79-122), which applies
a 24-hour per-device cooldown (`alertCooldowns`, storing `Date.now()` of the
last successful alert).  Alert creation itself (`alertService`) is modelled
as succeeding. -/

/-- Step function of the battery monitor service for one device: from the
cooldown entry and a reading `(now, batteryPercentage)` to
`(alertCreated, newCooldownEntry)`.  A `null`/`undefined` battery level is
ignored; otherwise `batteryLevel < 20` triggers `handleLowBattery`, which
alerts unless `lastAlert && (now - lastAlert) < 24h`. -/
def handleBatteryUpdate (cooldown : Option ℕ) (now : ℕ) (batteryPercentage : Option ℚ) :
    Bool × Option ℕ :=
  match batteryPercentage with
  | none => (false, cooldown)
  | some batteryLevel =>
    if batteryLevel < 20 then
      match cooldown with
      | some lastAlert =>
        if (!(lastAlert == 0)) ∧ now - lastAlert < 86400000 then
          (false, cooldown)
        else
          (true, some now)
      | none => (true, some now)
    else
      (false, cooldown)

/-- Run the battery monitor service over a stream of `(now, battery)` readings
for one device. -/
def batteryServiceProcess (c : Option ℕ) : List (ℕ × Option ℚ) → Option ℕ × List Bool
  | [] => (c, [])
  | r :: rest =>
    let step := handleBatteryUpdate c r.1 r.2
    let tail := batteryServiceProcess step.2 rest
    (tail.1, step.1 :: tail.2)

/-- Alert-creation flags of the battery monitor service over a stream, from an
empty cooldown map. -/
def batteryServiceAlerts (rs : List (ℕ × Option ℚ)) : List Bool :=
  (batteryServiceProcess none rs).2

/-! ## DeviceDataContext.js: displayed-status derivation

The device info listener (lines 253-260) derives the displayed status from
`deviceInfo.status` and `deviceInfo.lastSeen`. -/

/-- The device info fields the status derivation reads. -/
structure DeviceInfoView where
  status : Option String
  lastSeen : Option ℤ

/-- Embedding of the status derivation in the device info listener
(DeviceDataContext.js lines 253-260): `actualStatus = deviceInfo.status ||
'offline'`; then, guarded by JS truthiness of `deviceInfo.lastSeen` (so a
missing or zero timestamp skips the check), a status of `'online'` with
`lastSeen < Date.now() - 5*60*1000` is downgraded to `'offline'`. -/
def deriveActualStatus (info : DeviceInfoView) (now : ℤ) : String :=
  let actualStatus := jsOrStr info.status "offline"
  match info.lastSeen with
  | none => actualStatus
  | some lastSeen =>
    if lastSeen == 0 then actualStatus
    else
      let fiveMinutesAgo := now - 5 * 60 * 1000
      if lastSeen < fiveMinutesAgo ∧ actualStatus = "online" then "offline"
      else actualStatus

/-! ## DeviceDataContext.js: listener registry

`listenersRef.current` is a JS object mapping string keys to unsubscribe
functions.  Keys are modelled at the character level (`List Char`) because
the removed-device cleanup parses them with `key.split('_')[1]`.  Unsubscribe
functions are opaque; each carries a numeric token identifying the
subscription instance, so that re-registration is observable. -/

/-- The listener registry: key / subscription-token pairs. -/
abbrev Registry : Type := List (List Char × ℕ)

/-- Read a registry entry (JS object property read). -/
def regGet (reg : Registry) (k : List Char) : Option ℕ :=
  match reg with
  | [] => none
  | e :: rest => if e.1 = k then some e.2 else regGet rest k

/-- Write a registry entry (JS object property assignment: replaces an
existing entry, otherwise appends). -/
def regSet (reg : Registry) (k : List Char) (tok : ℕ) : Registry :=
  match reg with
  | [] => [(k, tok)]
  | e :: rest => if e.1 = k then (k, tok) :: rest else e :: regSet rest k tok

/-- Delete a registry entry (JS `delete obj[key]`). -/
def regDel (reg : Registry) (k : List Char) : Registry :=
  match reg with
  | [] => []
  | e :: rest => if e.1 = k then regDel rest k else e :: regDel rest k

/-- JS `String.prototype.split` with a one-character separator. -/
def jsSplit (sep : Char) : List Char → List (List Char)
  | [] => [[]]
  | c :: rest =>
    let r := jsSplit sep rest
    if c = sep then [] :: r
    else
      match r with
      | [] => [[c]]
      | h :: t => (c :: h) :: t

/-- Registry key `device_${deviceId}_data`. -/
def dataKey (id : List Char) : List Char :=
  "device_".toList ++ id ++ "_data".toList

/-- Registry key `device_${deviceId}_info`. -/
def infoKey (id : List Char) : List Char :=
  "device_".toList ++ id ++ "_info".toList

/-- Registry key of the claimed-devices list listener. -/
def claimedDevicesKey : List Char := "claimedDevices".toList

/-- Per-device listener creation inside the claimed-devices snapshot callback
(DeviceDataContext.js lines 161-315): for each claimed device id, when
`listenersRef.current[`device_${deviceId}_data`]` is absent, a data listener
and an info listener are created and stored.  The counter supplies fresh
subscription tokens. -/
def addDeviceListeners (reg : Registry) (ctr : ℕ) :
    List (List Char) → Registry × ℕ
  | [] => (reg, ctr)
  | id :: rest =>
    if (regGet reg (dataKey id)).isSome then
      addDeviceListeners reg ctr rest
    else
      addDeviceListeners
        (regSet (regSet reg (dataKey id) ctr) (infoKey id) (ctr + 1))
        (ctr + 2) rest

/-- The `currentDeviceIds` computation of the removed-device cleanup
(DeviceDataContext.js lines 341-343): keys starting with `device_`, parsed by
`key.split('_')[1]`. -/
def currentDeviceIds (reg : Registry) : List (List Char) :=
  ((reg.map Prod.fst).filter (fun k => List.isPrefixOf "device_".toList k)).map
    (fun k => (jsSplit '_' k).getD 1 [])

/-- The `forEach` of the removed-device cleanup (DeviceDataContext.js lines
345-357): for every parsed id not in the claimed list, the
`device_${id}_data` and `device_${id}_info` entries are unsubscribed and
deleted. -/
def removeStaleLoop (claimed : List (List Char)) :
    List (List Char) → Registry → Registry
  | [], reg => reg
  | id :: rest, reg =>
    removeStaleLoop claimed rest
      (if claimed.contains id then reg
       else regDel (regDel reg (dataKey id)) (infoKey id))

/-- The removed-device cleanup (DeviceDataContext.js lines 340-357):
`currentDeviceIds` is computed once from the registry, then stale ids are
removed. -/
def cleanupRemovedDevices (claimed : List (List Char)) (reg : Registry) : Registry :=
  removeStaleLoop claimed (currentDeviceIds reg) reg

/-- Registry effect of one claimed-devices snapshot (the `onValue` callback of
`setupDeviceListeners`).  When the snapshot does not exist the callback
returns early (DeviceDataContext.js lines 150-155) and every registered
listener is kept; otherwise (`some claimed`, the keys of `snapshot.val()`)
listeners are created for each claimed device, then listeners of removed
devices are cleaned up. -/
def processClaimedSnapshot (snapshot : Option (List (List Char)))
    (reg : Registry) (ctr : ℕ) : Registry × ℕ :=
  match snapshot with
  | none => (reg, ctr)
  | some claimed =>
    let added := addDeviceListeners reg ctr claimed
    (cleanupRemovedDevices claimed added.1, added.2)

/-- `cleanupAllListeners` (DeviceDataContext.js lines 33-45): every stored
unsubscribe function is called and the registry is reset to `{}`.  Returns
the unsubscribed entries together with the new registry. -/
def cleanupAllListeners (reg : Registry) : List (List Char × ℕ) × Registry :=
  (reg, [])

/-- Synchronous registry effect of `setupDeviceListeners` (line 368): the
claimed-devices listener is registered; per-device listeners follow from
later snapshot callbacks (`processClaimedSnapshot`). -/
def setupRootListener (reg : Registry) (tok : ℕ) : Registry :=
  regSet reg claimedDevicesKey tok

/-- React Native application states relevant to `handleAppStateChange`. -/
inductive AppStateV : Type where
  | active
  | background
  | inactive
deriving DecidableEq

/-- The regex test `state.match(/inactive|background/)` on app states. -/
def matchInactiveBackground : AppStateV → Bool
  | .active => false
  | .background => true
  | .inactive => true

/-- The provider state `handleAppStateChange` works on: `appStateRef.current`
and the listener registry. -/
structure AppCtx where
  appState : AppStateV
  listeners : Registry

/-- Embedding of `handleAppStateChange` (DeviceDataContext.js lines 381-393):
on a transition from `inactive`/`background` to `active` with a signed-in
user, `cleanupAllListeners()` then `setupDeviceListeners()` run; on a
transition into `inactive`/`background` the listeners are kept; finally
`appStateRef.current = nextAppState`.  Returns the unsubscribed entries and
the new provider state. -/
def handleAppStateChange (user : Option String) (next : AppStateV) (tok : ℕ)
    (st : AppCtx) : List (List Char × ℕ) × AppCtx :=
  if matchInactiveBackground st.appState ∧ next = .active then
    match user with
    | some _ =>
      let cl := cleanupAllListeners st.listeners
      (cl.1, { appState := next, listeners := setupRootListener cl.2 tok })
    | none => ([], { appState := next, listeners := st.listeners })
  else
    ([], { appState := next, listeners := st.listeners })

/-! ## deviceService.js: database state and backend primitives

The realtime database is modelled as an association list from full path
strings to values.  Backend calls can fail: `FbState.errs` is a queue of
injectable outcomes, one consumed per backend call (`none` = the call
succeeds, `some e` = the SDK promise rejects with message `e`), so the
theorems quantify over every pattern of backend errors.  `nowMs` / `nowIso`
model `Date.now()` / `new Date().toISOString()`. -/

/-- State of the modelled Firebase backend plus wall clock. -/
structure FbState where
  db : List (String × Val)
  errs : List (Option String)
  nowMs : ℚ
  nowIso : String

/-- Consume the next injected backend outcome. -/
def fbTick (s : FbState) : Option String × FbState :=
  match s.errs with
  | [] => (none, s)
  | e :: rest => (e, { s with errs := rest })

/-- Path lookup in the database. -/
def dbLookup (db : List (String × Val)) (p : String) : Option Val :=
  match db with
  | [] => none
  | e :: rest => if e.1 = p then some e.2 else dbLookup rest p

/-- Path write in the database (replace or append). -/
def dbStore (db : List (String × Val)) (p : String) (v : Val) : List (String × Val) :=
  match db with
  | [] => [(p, v)]
  | e :: rest => if e.1 = p then (p, v) :: rest else e :: dbStore rest p v

/-- Path removal in the database. -/
def dbRemoveAt (db : List (String × Val)) (p : String) : List (String × Val) :=
  match db with
  | [] => []
  | e :: rest => if e.1 = p then dbRemoveAt rest p else e :: dbRemoveAt rest p

/-- `get(ref(db, p))`: may reject; otherwise returns the snapshot value
(`none` = snapshot does not exist). -/
def fbGet (p : String) (s : FbState) : Except String (Option Val) × FbState :=
  match fbTick s with
  | (some e, s1) => (.error e, s1)
  | (none, s1) => (.ok (dbLookup s1.db p), s1)

/-- `set(ref(db, p), v)`: may reject; otherwise stores the value. -/
def fbSet (p : String) (v : Val) (s : FbState) : Except String Unit × FbState :=
  match fbTick s with
  | (some e, s1) => (.error e, s1)
  | (none, s1) => (.ok (), { s1 with db := dbStore s1.db p v })

/-- `remove(ref(db, p))`: may reject; otherwise removes the path. -/
def fbRemove (p : String) (s : FbState) : Except String Unit × FbState :=
  match fbTick s with
  | (some e, s1) => (.error e, s1)
  | (none, s1) => (.ok (), { s1 with db := dbRemoveAt s1.db p })

/-- Merge an update object into an object value (children written by
`update(ref, obj)`). -/
def mergeFields (fs : List (String × Val)) (patch : List (String × Val)) :
    List (String × Val) :=
  patch.foldl (fun acc kv => dbStore acc kv.1 kv.2) fs

/-- `update(ref(db, p), fields)`: may reject; otherwise merges the fields
into the object at the path. -/
def fbUpdate (p : String) (fields : List (String × Val)) (s : FbState) :
    Except String Unit × FbState :=
  match fbTick s with
  | (some e, s1) => (.error e, s1)
  | (none, s1) =>
    let merged :=
      match dbLookup s1.db p with
      | some (.obj fs) => Val.obj (mergeFields fs fields)
      | _ => Val.obj fields
    (.ok (), { s1 with db := dbStore s1.db p merged })

/-! ### JS object helpers -/

/-- Field lookup in an object literal's field list. -/
def fieldLookup (fs : List (String × Val)) (k : String) : Option Val :=
  match fs with
  | [] => none
  | e :: rest => if e.1 = k then some e.2 else fieldLookup rest k

/-- JS property read `v.k` (non-objects have no data properties here). -/
def objGet (v : Val) (k : String) : Option Val :=
  match v with
  | .obj fs => fieldLookup fs k
  | _ => none

/-- JS optional-chained property read `v?.k`. -/
def objGetOpt (o : Option Val) (k : String) : Option Val :=
  match o with
  | some v => objGet v k
  | none => none

/-- JS truthiness of a property read (`if (r.k)`). -/
def fieldTruthy (v : Val) (k : String) : Bool :=
  match objGet v k with
  | some w => w.truthy
  | none => false

/-- `Object.keys` (objects only; primitives have no own keys). -/
def jsObjectKeys (v : Val) : List String :=
  match v with
  | .obj fs => fs.map Prod.fst
  | _ => []

/-- JS strict comparison of a value against a string (`v === s`). -/
def valEqStr (v : Val) (s : String) : Bool :=
  match v with
  | .str t => t == s
  | _ => false

/-- `snapshot.exists() && snapshot.val() === s`. -/
def optValEqStr (o : Option Val) (s : String) : Bool :=
  match o with
  | some v => valEqStr v s
  | none => false

/-- JS falsiness of an optional string argument (`!x`: undefined or `""`). -/
def strArgFalsy (o : Option String) : Bool :=
  match o with
  | none => true
  | some s => s == ""

/-- JS falsiness of an optional value argument. -/
def valArgFalsy (o : Option Val) : Bool :=
  match o with
  | none => true
  | some v => !v.truthy

/-- `typeof x === 'boolean'` for a possibly-undefined argument. -/
def isBoolArg (o : Option Val) : Bool :=
  match o with
  | some (.bool _) => true
  | _ => false

/-- Template-literal coercion of a value into a path segment.  Only string
ids occur in this codebase; the stringification of other value types is
abstracted. -/
def valToPathStr (v : Val) : String :=
  match v with
  | .str s => s
  | _ => ""

/-- `parseFloat(x) || 0`; numeric parsing of non-numeric values (strings,
`NaN` fallthrough) is abstracted to the `|| 0` default. -/
def parseFloatOr0 (o : Option Val) : ℚ :=
  match o with
  | some (.num q) => q
  | _ => 0

/-- Success envelope `{ success: true, ...extra }`. -/
def resOk (extra : List (String × Val)) : Val :=
  .obj (("success", .bool true) :: extra)

/-- Failure envelope `{ success: false, error: msg, ...extra }`. -/
def resFail (msg : String) (extra : List (String × Val)) : Val :=
  .obj (("success", .bool false) :: ("error", .str msg) :: extra)

/-- `try { body } catch (error) { return handler(error.message) }` at an
operation's boundary. -/
def jsCatch (r : Except String Val × FbState) (h : String → Val) :
    Val × FbState :=
  match r with
  | (.ok v, s) => (v, s)
  | (.error e, s) => (h e, s)

/-- `error.message || fallback`. -/
def msgOr (e : String) (fallback : String) : String :=
  jsOrStr (some e) fallback

/-- `validateCurrentUser()` (deviceService.js lines 8-17): throws when no
user is signed in.  The signed-in uid is passed as `auth`. -/
def validateCurrentUser (auth : Option String) : Except String String :=
  match auth with
  | none => .error "No authenticated user found"
  | some uid => .ok uid

/-! ### deviceService operations

Each operation returns the JS result object and the backend state.  The
in-memory listener bookkeeping of `deviceService` (`activeListeners`) has no
effect on results or database state and is not modelled. -/

/-- Body of `claimDeviceOwnership` (deviceService.js lines 90-124). -/
def claimDeviceOwnershipBody (userId deviceId : Option String) (s : FbState) :
    Except String Val × FbState :=
  if strArgFalsy userId || strArgFalsy deviceId then
    (.ok (resFail "User ID and device ID are required" []), s)
  else
    let uid := userId.getD ""
    let did := deviceId.getD ""
    match fbGet ("deviceOwners/" ++ did) s with
    | (.error e, s1) => (.error e, s1)
    | (.ok ownerVal, s1) =>
      match ownerVal with
      | some currentOwner =>
        if !valEqStr currentOwner uid then
          (.ok (resFail "Device is already claimed by another user" []), s1)
        else
          (.ok (resOk [("alreadyOwned", .bool true)]), s1)
      | none =>
        match fbSet ("deviceOwners/" ++ did) (.str uid) s1 with
        | (.error e, s2) => (.error e, s2)
        | (.ok _, s2) => (.ok (resOk []), s2)

/-- `claimDeviceOwnership(userId, deviceId)`. -/
def claimDeviceOwnership (userId deviceId : Option String) (s : FbState) :
    Val × FbState :=
  jsCatch (claimDeviceOwnershipBody userId deviceId s) (fun e => resFail e [])

/-- Body of `checkDeviceOwnership` (deviceService.js lines 127-148). -/
def checkDeviceOwnershipBody (auth deviceId : Option String) (s : FbState) :
    Except String Val × FbState :=
  if strArgFalsy deviceId then
    (.ok (.obj [("success", .bool false), ("isOwner", .bool false),
      ("error", .str "Device ID is required")]), s)
  else
    match validateCurrentUser auth with
    | .error e => (.error e, s)
    | .ok uid =>
      let did := deviceId.getD ""
      match fbGet ("deviceOwners/" ++ did) s with
      | (.error e, s1) => (.error e, s1)
      | (.ok ownerVal, s1) =>
        (.ok (.obj [("success", .bool true),
          ("isOwner", .bool (optValEqStr ownerVal uid)),
          ("owner", jsOrVal ownerVal .null)]), s1)

/-- `checkDeviceOwnership(deviceId)`. -/
def checkDeviceOwnership (auth deviceId : Option String) (s : FbState) :
    Val × FbState :=
  jsCatch (checkDeviceOwnershipBody auth deviceId s)
    (fun e => .obj [("success", .bool false), ("isOwner", .bool false),
      ("error", .str e)])

/-- Body of `controlValve` (deviceService.js lines 540-568). -/
def controlValveBody (auth : Option String) (deviceId : Option String)
    (shouldOpen : Option Val) (s : FbState) : Except String Val × FbState :=
  if strArgFalsy deviceId || !isBoolArg shouldOpen then
    (.ok (resFail "Device ID and valve state (boolean) are required" []), s)
  else
    match validateCurrentUser auth with
    | .error e => (.error e, s)
    | .ok uid =>
      let did := deviceId.getD ""
      match fbGet ("deviceOwners/" ++ did) s with
      | (.error e, s1) => (.error e, s1)
      | (.ok ownerVal, s1) =>
        if !optValEqStr ownerVal uid then
          (.ok (resFail "You do not own this device" []), s1)
        else
          let b := match shouldOpen with
            | some (.bool b) => b
            | _ => false
          match fbSet ("devices/" ++ did ++ "/commands/valveControl") (.bool b) s1 with
          | (.error e, s2) => (.error e, s2)
          | (.ok _, s2) => (.ok (resOk []), s2)

/-- `controlValve(deviceId, shouldOpen)`. -/
def controlValve (auth : Option String) (deviceId : Option String)
    (shouldOpen : Option Val) (s : FbState) : Val × FbState :=
  jsCatch (controlValveBody auth deviceId shouldOpen s)
    (fun e => resFail (msgOr e "Failed to control valve") [])

/-- Body of `resetTotalLitres` (deviceService.js lines 571-599). -/
def resetTotalLitresBody (auth deviceId : Option String) (s : FbState) :
    Except String Val × FbState :=
  if strArgFalsy deviceId then
    (.ok (resFail "Device ID is required" []), s)
  else
    match validateCurrentUser auth with
    | .error e => (.error e, s)
    | .ok uid =>
      let did := deviceId.getD ""
      match fbGet ("deviceOwners/" ++ did) s with
      | (.error e, s1) => (.error e, s1)
      | (.ok ownerVal, s1) =>
        if !optValEqStr ownerVal uid then
          (.ok (resFail "You do not own this device" []), s1)
        else
          match fbSet ("devices/" ++ did ++ "/commands/resetTotal") (.bool true) s1 with
          | (.error e, s2) => (.error e, s2)
          | (.ok _, s2) => (.ok (resOk []), s2)

/-- `resetTotalLitres(deviceId)`. -/
def resetTotalLitres (auth deviceId : Option String) (s : FbState) :
    Val × FbState :=
  jsCatch (resetTotalLitresBody auth deviceId s)
    (fun e => resFail (msgOr e "Failed to reset total litres") [])

/-- Body of `removeDeviceOwnership` (deviceService.js lines 1045-1072). -/
def removeDeviceOwnershipBody (auth deviceId : Option String) (s : FbState) :
    Except String Val × FbState :=
  if strArgFalsy deviceId then
    (.ok (resFail "Device ID is required" []), s)
  else
    match validateCurrentUser auth with
    | .error e => (.error e, s)
    | .ok uid =>
      let did := deviceId.getD ""
      match fbGet ("deviceOwners/" ++ did) s with
      | (.error e, s1) => (.error e, s1)
      | (.ok ownerVal, s1) =>
        if !optValEqStr ownerVal uid then
          (.ok (resFail "You do not own this device" []), s1)
        else
          match fbRemove ("deviceOwners/" ++ did) s1 with
          | (.error e, s2) => (.error e, s2)
          | (.ok _, s2) => (.ok (resOk []), s2)

/-- `removeDeviceOwnership(deviceId)`. -/
def removeDeviceOwnership (auth deviceId : Option String) (s : FbState) :
    Val × FbState :=
  jsCatch (removeDeviceOwnershipBody auth deviceId s)
    (fun e => resFail (msgOr e "Failed to remove device ownership") [])

/-- Body of `testDeviceConnection` (deviceService.js lines 1075-1116). -/
def testDeviceConnectionBody (auth deviceId : Option String) (s : FbState) :
    Except String Val × FbState :=
  if strArgFalsy deviceId then
    (.ok (resFail "Device ID is required" []), s)
  else
    match validateCurrentUser auth with
    | .error e => (.error e, s)
    | .ok uid =>
      let did := deviceId.getD ""
      match fbGet ("deviceOwners/" ++ did) s with
      | (.error e, s1) => (.error e, s1)
      | (.ok ownerVal, s1) =>
        if !optValEqStr ownerVal uid then
          (.ok (resFail "You do not own this device" []), s1)
        else
          match fbGet ("devices/" ++ did ++ "/info") s1 with
          | (.error e, s2) => (.error e, s2)
          | (.ok infoOpt, s2) =>
            match fbGet ("devices/" ++ did ++ "/data") s2 with
            | (.error e, s3) => (.error e, s3)
            | (.ok dataOpt, s3) =>
              if infoOpt.isSome || dataOpt.isSome then
                (.ok (resOk [("info", infoOpt.getD .null),
                  ("data", dataOpt.getD .null)]), s3)
              else
                (.ok (resFail "Device is not sending data" []), s3)

/-- `testDeviceConnection(deviceId)`. -/
def testDeviceConnection (auth deviceId : Option String) (s : FbState) :
    Val × FbState :=
  jsCatch (testDeviceConnectionBody auth deviceId s)
    (fun e => resFail (msgOr e "Failed to test device connection") [])

/-- Body of `getDeviceData` (deviceService.js lines 907-950). -/
def getDeviceDataBody (auth deviceId : Option String) (s : FbState) :
    Except String Val × FbState :=
  if strArgFalsy deviceId then
    (.ok (resFail "Device ID is required" [("data", .null)]), s)
  else
    match validateCurrentUser auth with
    | .error e => (.error e, s)
    | .ok _uid =>
      let did := deviceId.getD ""
      let owch := checkDeviceOwnership auth deviceId s
      if !fieldTruthy owch.1 "success" || !fieldTruthy owch.1 "isOwner" then
        (.ok (resFail "Device not found or unauthorized" [("data", .null)]), owch.2)
      else
        match fbGet ("devices/" ++ did ++ "/data") owch.2 with
        | (.error e, s1) => (.error e, s1)
        | (.ok dataOpt, s1) =>
          match dataOpt with
          | some data =>
            (.ok (resOk [("data", .obj [
              ("deviceId", jsOrVal (objGet data "deviceId") (.str did)),
              ("flowRate", .num (parseFloatOr0 (objGet data "flowRate"))),
              ("totalLitres", .num (parseFloatOr0 (objGet data "totalLitres"))),
              ("valveState", jsOrVal (objGet data "valveState") (.str "UNKNOWN")),
              ("status", jsOrVal (objGet data "status") (.str "offline")),
              ("timestamp", jsOrVal (objGet data "timestamp") (.num s1.nowMs)),
              ("rssi", jsOrVal (objGet data "rssi") .null)])]), s1)
          | none => (.ok (resOk [("data", .null)]), s1)

/-- `getDeviceData(deviceId)`. -/
def getDeviceData (auth deviceId : Option String) (s : FbState) :
    Val × FbState :=
  jsCatch (getDeviceDataBody auth deviceId s)
    (fun e => resFail (msgOr e "Failed to get device data") [("data", .null)])

/-- Body of `getDeviceInfo` (deviceService.js lines 953-986). -/
def getDeviceInfoBody (auth deviceId : Option String) (s : FbState) :
    Except String Val × FbState :=
  if strArgFalsy deviceId then
    (.ok (resFail "Device ID is required" [("data", .null)]), s)
  else
    match validateCurrentUser auth with
    | .error e => (.error e, s)
    | .ok _uid =>
      let did := deviceId.getD ""
      let owch := checkDeviceOwnership auth deviceId s
      if !fieldTruthy owch.1 "success" || !fieldTruthy owch.1 "isOwner" then
        (.ok (resFail "Device not found or unauthorized" [("data", .null)]), owch.2)
      else
        match fbGet ("devices/" ++ did ++ "/info") owch.2 with
        | (.error e, s1) => (.error e, s1)
        | (.ok infoOpt, s1) =>
          match infoOpt with
          | some info => (.ok (resOk [("data", info)]), s1)
          | none => (.ok (resOk [("data", .null)]), s1)

/-- `getDeviceInfo(deviceId)`. -/
def getDeviceInfo (auth deviceId : Option String) (s : FbState) :
    Val × FbState :=
  jsCatch (getDeviceInfoBody auth deviceId s)
    (fun e => resFail (msgOr e "Failed to get device info") [("data", .null)])

/-- Body of `addDevice` (deviceService.js lines 151-199). -/
def addDeviceBody (auth userId : Option String) (deviceData : Option Val)
    (s : FbState) : Except String Val × FbState :=
  if strArgFalsy userId || valArgFalsy deviceData then
    (.ok (resFail "User ID and device data are required" []), s)
  else
    match validateCurrentUser auth with
    | .error e => (.error e, s)
    | .ok uid =>
      let u := userId.getD ""
      if uid ≠ u then
        (.ok (resFail "User ID mismatch" []), s)
      else
        let deviceIdVal := objGetOpt deviceData "deviceId"
        if valArgFalsy deviceIdVal then
          (.ok (resFail "Device ID is required" []), s)
        else
          let did := valToPathStr (deviceIdVal.getD .null)
          match fbGet ("deviceOwners/" ++ did) s with
          | (.error e, s1) => (.error e, s1)
          | (.ok ownerVal, s1) =>
            match ownerVal with
            | some currentOwner =>
              if !valEqStr currentOwner u then
                (.ok (.obj [("success", .bool false),
                  ("error", .str "This device is already claimed by another user"),
                  ("isDuplicate", .bool true)]), s1)
              else
                (.ok (resOk [("alreadyOwned", .bool true)]), s1)
            | none =>
              match fbSet ("users/" ++ u ++ "/claimedDevices/" ++ did) (.bool true) s1 with
              | (.error e, s2) => (.error e, s2)
              | (.ok _, s2) =>
                match fbSet ("deviceOwners/" ++ did) (.str u) s2 with
                | (.error e, s3) => (.error e, s3)
                | (.ok _, s3) => (.ok (resOk [("deviceId", deviceIdVal.getD .null)]), s3)

/-- `addDevice(userId, deviceData)`. -/
def addDevice (auth userId : Option String) (deviceData : Option Val)
    (s : FbState) : Val × FbState :=
  jsCatch (addDeviceBody auth userId deviceData s)
    (fun e => resFail (msgOr e "Failed to add device") [])

/-- Basic device row pushed when per-device reads fail
(deviceService.js lines 261-267). -/
def basicDeviceRow (did : String) : Val :=
  .obj [("id", .str did), ("deviceId", .str did),
    ("name", .str "Water Monitor"), ("status", .str "offline"),
    ("totalUsage", .num 0)]

/-- Full device row of `getUserDevices` (deviceService.js lines 242-257). -/
def deviceRow (did : String) (infoData latestData : Val) (now : ℚ) : Val :=
  .obj [("id", .str did), ("deviceId", .str did),
    ("name", jsOrVal (objGet infoData "name")
      (jsOrVal (objGet infoData "deviceName") (.str "Water Monitor"))),
    ("location", jsOrVal (objGet infoData "location") (.str "Not Set")),
    ("status", jsOrVal (objGet infoData "status")
      (jsOrVal (objGet latestData "status") (.str "offline"))),
    ("lastSeen", jsOrVal (objGet infoData "lastSeen") (.num now)),
    ("totalUsage", jsOrVal (objGet latestData "totalLitres") (.num 0)),
    ("totalLitres", jsOrVal (objGet latestData "totalLitres") (.num 0)),
    ("flowRate", jsOrVal (objGet latestData "flowRate") (.num 0)),
    ("valveState", jsOrVal (objGet latestData "valveState") (.str "UNKNOWN")),
    ("batteryLevel", jsOrVal (objGet latestData "batteryPercentage")
      (jsOrVal (objGet infoData "batteryPercentage") (.num 0))),
    ("signalStrength", jsOrVal (objGetOpt (objGet infoData "wifiInfo") "rssi")
      (.str "unknown")),
    ("data", latestData), ("info", infoData)]

/-- The per-device loop of `getUserDevices` (deviceService.js lines 229-269):
each claimed id is re-claimed, then its info and data are read; a failed read
falls back to the basic row (inner `try`/`catch`). -/
def getUserDevicesLoop (u : String) :
    List String → List Val → FbState → List Val × FbState
  | [], acc, s => (acc, s)
  | did :: rest, acc, s =>
    let cl := claimDeviceOwnership (some u) (some did) s
    match fbGet ("devices/" ++ did ++ "/info") cl.2 with
    | (.error _, s2) => getUserDevicesLoop u rest (acc ++ [basicDeviceRow did]) s2
    | (.ok infoOpt, s2) =>
      match fbGet ("devices/" ++ did ++ "/data") s2 with
      | (.error _, s3) => getUserDevicesLoop u rest (acc ++ [basicDeviceRow did]) s3
      | (.ok dataOpt, s3) =>
        getUserDevicesLoop u rest
          (acc ++ [deviceRow did (infoOpt.getD (.obj [])) (dataOpt.getD (.obj [])) s3.nowMs])
          s3

/-- Body of `getUserDevices` (deviceService.js lines 202-278). -/
def getUserDevicesBody (auth userId : Option String) (s : FbState) :
    Except String Val × FbState :=
  if strArgFalsy userId then
    (.ok (resFail "User ID is required" [("devices", .arr [])]), s)
  else
    match validateCurrentUser auth with
    | .error e => (.error e, s)
    | .ok uid =>
      let u := userId.getD ""
      if uid ≠ u then
        (.ok (.obj [("success", .bool false),
          ("error", .str "Unauthorized: User ID mismatch"),
          ("devices", .arr [])]), s)
      else
        match fbGet ("users/" ++ u ++ "/claimedDevices") s with
        | (.error e, s1) => (.error e, s1)
        | (.ok claimedVal, s1) =>
          match claimedVal with
          | none => (.ok (resOk [("devices", .arr [])]), s1)
          | some v =>
            let loop := getUserDevicesLoop u (jsObjectKeys v) [] s1
            (.ok (resOk [("devices", .arr loop.1)]), loop.2)

/-- `getUserDevices(userId)`. -/
def getUserDevices (auth userId : Option String) (s : FbState) :
    Val × FbState :=
  jsCatch (getUserDevicesBody auth userId s)
    (fun e => resFail (msgOr e "Failed to get user devices") [("devices", .arr [])])

/-- Body of `updateDevice` (deviceService.js lines 491-537). -/
def updateDeviceBody (auth userId deviceId : Option String)
    (updates : Option (List (String × Val))) (s : FbState) :
    Except String Val × FbState :=
  if strArgFalsy userId || strArgFalsy deviceId || updates.isNone then
    (.ok (resFail "User ID, device ID, and updates are required" []), s)
  else
    match validateCurrentUser auth with
    | .error e => (.error e, s)
    | .ok uid =>
      let u := userId.getD ""
      if uid ≠ u then
        (.ok (resFail "User ID mismatch" []), s)
      else
        let did := deviceId.getD ""
        let p := "users/" ++ u ++ "/devices/" ++ did
        match fbGet p s with
        | (.error e, s1) => (.error e, s1)
        | (.ok cur, s1) =>
          match cur with
          | none => (.ok (resFail "Device not found" []), s1)
          | some _ =>
            let ups := updates.getD []
            let b0 := [("updatedAt", Val.str s1.nowIso)]
            let b1 := match fieldLookup ups "name" with
              | some v => b0 ++ [("name", v)]
              | none => b0
            let b2 := match fieldLookup ups "location" with
              | some v => b1 ++ [("location", v)]
              | none => b1
            let b3 := match fieldLookup ups "deviceId" with
              | some v => b2 ++ [("deviceId", v)]
              | none => b2
            let cleanUpdate := ups.foldl
              (fun acc kv =>
                if (fieldLookup acc kv.1).isSome then acc else acc ++ [kv]) b3
            match fbUpdate p cleanUpdate s1 with
            | (.error e, s2) => (.error e, s2)
            | (.ok _, s2) => (.ok (resOk []), s2)

/-- `updateDevice(userId, deviceId, updates)`. -/
def updateDevice (auth userId deviceId : Option String)
    (updates : Option (List (String × Val))) (s : FbState) : Val × FbState :=
  jsCatch (updateDeviceBody auth userId deviceId updates s)
    (fun e => resFail (msgOr e "Failed to update device") [])

/-- Body of `removeDevice` (deviceService.js lines 602-648).  The in-memory
listener cleanup of steps 1 has no database effect and is not modelled. -/
def removeDeviceBody (auth userId deviceId : Option String) (s : FbState) :
    Except String Val × FbState :=
  if strArgFalsy userId || strArgFalsy deviceId then
    (.ok (resFail "User ID and device ID are required" []), s)
  else
    match validateCurrentUser auth with
    | .error e => (.error e, s)
    | .ok uid =>
      let u := userId.getD ""
      if uid ≠ u then
        (.ok (resFail "User ID mismatch" []), s)
      else
        let did := deviceId.getD ""
        match fbRemove ("users/" ++ u ++ "/claimedDevices/" ++ did) s with
        | (.error e, s1) => (.error e, s1)
        | (.ok _, s1) =>
          match fbGet ("deviceOwners/" ++ did) s1 with
          | (.error e, s2) => (.error e, s2)
          | (.ok ownerVal, s2) =>
            if optValEqStr ownerVal u then
              match fbRemove ("deviceOwners/" ++ did) s2 with
              | (.error e, s3) => (.error e, s3)
              | (.ok _, s3) => (.ok (resOk []), s3)
            else
              (.ok (resOk []), s2)

/-- `removeDevice(userId, deviceId)`. -/
def removeDevice (auth userId deviceId : Option String) (s : FbState) :
    Val × FbState :=
  jsCatch (removeDeviceBody auth userId deviceId s)
    (fun e => resFail (msgOr e "Failed to remove device") [])

/-- The `switch (timeRange)` start-time table of `getDeviceHistory`
(deviceService.js lines 677-695). -/
def historyStartTime (timeRange : String) (now : ℚ) : ℚ :=
  if timeRange = "1h" then now - 3600000
  else if timeRange = "24h" then now - 86400000
  else if timeRange = "7d" then now - 604800000
  else if timeRange = "30d" then now - 2592000000
  else if timeRange = "12m" then now - 31536000000
  else now - 86400000

/-- Numeric `timestamp` child of a history entry.  The server-side query
orders and bounds by this child; entries whose timestamp is not a number are
abstracted away (their cross-type index order is not modelled), and the
`new Date(...)` fallback for non-numeric timestamps is abstracted to 0. -/
def entryTs (v : Val) : ℚ :=
  match objGet v "timestamp" with
  | some (.num t) => t
  | _ => 0

/-- Whether a history entry has a numeric timestamp within the query range. -/
def entryInRange (startTime endTime : ℚ) (v : Val) : Bool :=
  match objGet v "timestamp" with
  | some (.num t) => decide (startTime ≤ t ∧ t ≤ endTime)
  | _ => false

/-- A history row built by `getDeviceHistory` (deviceService.js
lines 716-722). -/
def historyRow (k : String) (v : Val) : Val :=
  .obj [("id", .str k), ("timestamp", .num (entryTs v)),
    ("flowRate", .num (parseFloatOr0 (objGet v "flowRate"))),
    ("totalLitres", .num (parseFloatOr0 (objGet v "totalLitres"))),
    ("valveState", jsOrVal (objGet v "valveState") (.str "UNKNOWN"))]

/-- Stable insertion into a list ascending by a rational key (the JS
`sort((a, b) => key(a) - key(b))`). -/
def insertByKey (key : Val → ℚ) (r : Val) : List Val → List Val
  | [] => [r]
  | h :: t => if key h ≤ key r then h :: insertByKey key r t else r :: h :: t

/-- Stable ascending sort by a rational key. -/
def sortByKey (key : Val → ℚ) (rows : List Val) : List Val :=
  rows.foldl (fun acc r => insertByKey key r acc) []

/-- The `timestamp` field of a built history row. -/
def rowTs (r : Val) : ℚ :=
  match objGet r "timestamp" with
  | some (.num t) => t
  | _ => 0

/-- Children of a database node (an object's key/value pairs). -/
def nodeChildren (o : Option Val) : List (String × Val) :=
  match o with
  | some (.obj fs) => fs
  | _ => []

/-- Body of `getDeviceHistory` (deviceService.js lines 656-737). -/
def getDeviceHistoryBody (auth deviceId : Option String) (timeRange : String)
    (s : FbState) : Except String Val × FbState :=
  if strArgFalsy deviceId then
    (.ok (resFail "Device ID is required" [("data", .arr [])]), s)
  else
    match validateCurrentUser auth with
    | .error e => (.error e, s)
    | .ok _uid =>
      let did := deviceId.getD ""
      let owch := checkDeviceOwnership auth deviceId s
      if !fieldTruthy owch.1 "success" || !fieldTruthy owch.1 "isOwner" then
        (.ok (resFail "Device not found or unauthorized" [("data", .arr [])]), owch.2)
      else
        let now := owch.2.nowMs
        let startTime := historyStartTime timeRange now
        match fbGet ("history/" ++ did) owch.2 with
        | (.error e, s1) => (.error e, s1)
        | (.ok hv, s1) =>
          let matching := (nodeChildren hv).filter
            (fun kv => entryInRange startTime now kv.2)
          if matching.isEmpty then
            (.ok (resOk [("data", .arr [])]), s1)
          else
            let rows := matching.map (fun kv => historyRow kv.1 kv.2)
            (.ok (resOk [("data", .arr (sortByKey rowTs rows))]), s1)

/-- `getDeviceHistory(deviceId, timeRange)`. -/
def getDeviceHistory (auth deviceId : Option String) (timeRange : String)
    (s : FbState) : Val × FbState :=
  jsCatch (getDeviceHistoryBody auth deviceId timeRange s)
    (fun e => resFail (msgOr e "Failed to get device history") [("data", .arr [])])

/-- Numeric stand-in for `new Date(entry.date).getTime()`: analytics dates
are strings in production; their parsed order is abstracted (all string
dates compare equal), which does not affect the result envelope. -/
def entryDateMs (v : Val) : ℚ :=
  match objGet v "date" with
  | some (.num q) => q
  | _ => 0

/-- An analytics row built by `getAnalyticsData` (deviceService.js
lines 768-775). -/
def analyticsRow (k : String) (v : Val) : Val :=
  .obj [("id", .str k), ("date", (objGet v "date").getD .null),
    ("totalUsage", .num (parseFloatOr0 (objGet v "totalUsage"))),
    ("averageFlow", .num (parseFloatOr0 (objGet v "averageFlow"))),
    ("peakFlow", .num (parseFloatOr0 (objGet v "peakFlow"))),
    ("duration", .num (parseFloatOr0 (objGet v "duration")))]

/-- The `date` key of a built analytics row. -/
def rowDateMs (r : Val) : ℚ :=
  match objGet r "date" with
  | some (.num q) => q
  | _ => 0

/-- Stable insertion of node children ascending by a rational key. -/
def insertPairByKey (key : Val → ℚ) (r : String × Val) :
    List (String × Val) → List (String × Val)
  | [] => [r]
  | h :: t => if key h.2 ≤ key r.2 then h :: insertPairByKey key r t else r :: h :: t

/-- Stable ascending sort of node children by a rational key. -/
def sortPairsByKey (key : Val → ℚ) (rows : List (String × Val)) :
    List (String × Val) :=
  rows.foldl (fun acc r => insertPairByKey key r acc) []

/-- Body of `getAnalyticsData` (deviceService.js lines 740-790); the
`timeRange` parameter is unused by the source. -/
def getAnalyticsDataBody (auth deviceId : Option String) (_timeRange : String)
    (s : FbState) : Except String Val × FbState :=
  if strArgFalsy deviceId then
    (.ok (resFail "Device ID is required" [("data", .arr [])]), s)
  else
    match validateCurrentUser auth with
    | .error e => (.error e, s)
    | .ok _uid =>
      let did := deviceId.getD ""
      let owch := checkDeviceOwnership auth deviceId s
      if !fieldTruthy owch.1 "success" || !fieldTruthy owch.1 "isOwner" then
        (.ok (resFail "Device not found or unauthorized" [("data", .arr [])]), owch.2)
      else
        match fbGet ("analytics/" ++ did) owch.2 with
        | (.error e, s1) => (.error e, s1)
        | (.ok av, s1) =>
          let ordered := sortPairsByKey entryDateMs (nodeChildren av)
          let limited := ordered.drop (ordered.length - 365)
          if limited.isEmpty then
            (.ok (resOk [("data", .arr [])]), s1)
          else
            let rows := limited.map (fun kv => analyticsRow kv.1 kv.2)
            (.ok (resOk [("data", .arr (sortByKey rowDateMs rows))]), s1)

/-- `getAnalyticsData(deviceId, timeRange)`. -/
def getAnalyticsData (auth deviceId : Option String) (timeRange : String)
    (s : FbState) : Val × FbState :=
  jsCatch (getAnalyticsDataBody auth deviceId timeRange s)
    (fun e => resFail (msgOr e "Failed to get analytics data") [("data", .arr [])])

/-- The per-device loop of `migrateExistingDevices` (deviceService.js
lines 1013-1027), accumulating claimed / alreadyOwned / failed counters. -/
def migrateLoop (u : String) :
    List Val → ℕ → ℕ → ℕ → FbState → (ℕ × ℕ × ℕ) × FbState
  | [], c, a, f, s => ((c, a, f), s)
  | d :: rest, c, a, f, s =>
    if fieldTruthy d "deviceId" then
      let r := claimDeviceOwnership (some u)
        (some (valToPathStr ((objGet d "deviceId").getD .null))) s
      if fieldTruthy r.1 "success" then
        if fieldTruthy r.1 "alreadyOwned" then migrateLoop u rest c (a + 1) f r.2
        else migrateLoop u rest (c + 1) a f r.2
      else migrateLoop u rest c a (f + 1) r.2
    else migrateLoop u rest c a f s

/-- Body of `migrateExistingDevices` (deviceService.js lines 989-1042). -/
def migrateExistingDevicesBody (auth userId : Option String) (s : FbState) :
    Except String Val × FbState :=
  if strArgFalsy userId then
    (.ok (resFail "User ID is required" []), s)
  else
    match validateCurrentUser auth with
    | .error e => (.error e, s)
    | .ok uid =>
      let u := userId.getD ""
      if uid ≠ u then
        (.ok (resFail "User ID mismatch" []), s)
      else
        let gud := getUserDevices auth userId s
        if !fieldTruthy gud.1 "success" then
          (.ok (.obj [("success", .bool false),
            ("error", (objGet gud.1 "error").getD .null)]), gud.2)
        else
          let devices := match objGet gud.1 "devices" with
            | some (.arr l) => l
            | _ => []
          let loop := migrateLoop u devices 0 0 0 gud.2
          (.ok (resOk [("claimed", .num loop.1.1),
            ("alreadyOwned", .num loop.1.2.1),
            ("failed", .num loop.1.2.2),
            ("total", .num devices.length)]), loop.2)

/-- `migrateExistingDevices(userId)`. -/
def migrateExistingDevices (auth userId : Option String) (s : FbState) :
    Val × FbState :=
  jsCatch (migrateExistingDevicesBody auth userId s)
    (fun e => resFail (msgOr e "Migration failed") [])

/-! ## Predicates used by the theorems -/

/-- A device id without underscores (the registry-key parser
`key.split('_')[1]` is only faithful for these). -/
def noUnderscore (id : List Char) : Bool :=
  !id.contains '_'

/-- Registry well-formedness: every key is either a non-device key (no
`device_` prefix) or a data/info key of some underscore-free id. -/
def RegWF (reg : Registry) : Prop :=
  ∀ kt ∈ reg, (¬ ("device_".toList.isPrefixOf kt.1 = true)) ∨
    ∃ id, noUnderscore id = true ∧ (kt.1 = dataKey id ∨ kt.1 = infoKey id)

/-- Registry pairing: the data listener of an id is registered exactly when
its info listener is. -/
def RegPaired (reg : Registry) : Prop :=
  ∀ id, noUnderscore id = true →
    ((regGet reg (dataKey id)).isSome ↔ (regGet reg (infoKey id)).isSome)

/-- Result-envelope predicate: the result object has a boolean `success`
field, and a string `error` field whenever `success` is `false`. -/
def envOkB (r : Val) : Bool :=
  match objGet r "success" with
  | some (.bool true) => true
  | some (.bool false) =>
    match objGet r "error" with
    | some (.str _) => true
    | _ => false
  | _ => false

/-- The result object carries an array under the given key. -/
def hasArr (k : String) (r : Val) : Bool :=
  match objGet r k with
  | some (.arr _) => true
  | _ => false

/-- On failure (`success: false`) the array under the given key is empty. -/
def failImpliesEmpty (k : String) (r : Val) : Bool :=
  match objGet r "success" with
  | some (.bool false) =>
    match objGet r k with
    | some (.arr l) => l.isEmpty
    | _ => false
  | _ => true

/-! ## Theorems -/

/-- C3 (counterexample): the claim that alert creation equals applying a
per-reading threshold predicate independently to each reading is false: on
the stream `[10%, 10%]` the implemented handler creates an alert only for the
first reading, while the independent per-reading predicate flags both. -/
theorem alert_statelessness_refuted :
    lowBatteryAlerts [some 10, some 10] = [true, false] ∧
    List.map specLowBatteryFlag [some 10, some 10] = [true, true] ∧
    lowBatteryAlerts [some 10, some 10]
      ≠ List.map specLowBatteryFlag [some 10, some 10] := by
  exact ⟨by decide, by decide, by decide⟩

/-- C3 (amended): each alert decision is a pure function of the current
reading together with the per-device tracker entry, namely the fixed
per-reading threshold predicate conjoined with the tracker condition — so the
derivation carries state between successive readings and is not a function of
the reading alone. -/
theorem alert_decision_stateful_characterization :
    (∀ (t r : Option ℚ),
      (handleLowBatteryDetection t r).1
        = (specLowBatteryFlag r && (qEntryFalsy t || qEntryGt25 t))) ∧
    (∀ (now : ℕ) (t : Option ℕ) (fr : Option ℚ) (vs : Option String),
      (handleLeakDetection now t fr vs).1
        = (specLeakFlag fr vs && natEntryFalsy t)) := by
  constructor
  · intro t r
    by_cases h : jsOrQ r 0 < 20 ∧ jsOrQ r 0 > 0
    · simp only [handleLowBatteryDetection, specLowBatteryFlag, if_pos h,
        decide_eq_true h]
      cases hb : (qEntryFalsy t || qEntryGt25 t) <;> simp [hb]
    · simp only [handleLowBatteryDetection, specLowBatteryFlag, if_neg h,
        decide_eq_false h, Bool.false_and]
      split <;> rfl
  · intro now t fr vs
    by_cases h : jsOrQ fr 0 > leakFlowThreshold ∧ jsOrStr vs "UNKNOWN" = "CLOSED"
    · simp only [handleLeakDetection, specLeakFlag, if_pos h,
        decide_eq_true h]
      cases hb : natEntryFalsy t <;> simp [hb]
    · simp only [handleLeakDetection, specLeakFlag, if_neg h,
        decide_eq_false h, Bool.false_and]
      split <;> rfl

/-- C5: the two low-battery implementations diverge.  On the stream
10% at t=1000, 30% at t=1h, 10% at t=2h, the context handler (hysteresis,
reset at >= 25%) alerts on the first and third readings, while the battery
monitor service (24 h cooldown, no lower bound) alerts only on the first;
moreover a 0% reading alerts in the service but not in the context handler. -/
theorem duplicate_battery_logic_divergence :
    lowBatteryAlerts [some 10, some 30, some 10] = [true, false, true] ∧
    batteryServiceAlerts [(1000, some 10), (3600000, some 30), (7200000, some 10)]
      = [true, false, false] ∧
    lowBatteryAlerts [some 10, some 30, some 10]
      ≠ batteryServiceAlerts
          [(1000, some 10), (3600000, some 30), (7200000, some 10)] ∧
    (handleBatteryUpdate none 1000 (some 0)).1 = true ∧
    (handleLowBatteryDetection none (some 0)).1 = false := by
  exact ⟨by decide, by decide, by decide, by decide, by decide⟩

/-- C4 (counterexample): the claim that no operation in this repository
inspects the ownership record or rejects a claim of an already-claimed device
is false: with `deviceOwners/DEV = "alice"`, `claimDeviceOwnership("bob",
"DEV")` reads the record, rejects, and writes nothing. -/
theorem ownership_client_check_refutes_claim :
    claimDeviceOwnership (some "bob") (some "DEV")
        ⟨[("deviceOwners/DEV", .str "alice")], [], 0, ""⟩
      = (resFail "Device is already claimed by another user" [],
         ⟨[("deviceOwners/DEV", .str "alice")], [], 0, ""⟩) := by
  rfl

/-- C4 (amended): single ownership of a claimed device is also enforced
client-side by this repository: `claimDeviceOwnership` (and `addDevice`)
read `deviceOwners/deviceId` and reject when it names another user, succeed
without writing when it already names the caller, and write the caller's uid
only when no owner record exists. -/
theorem client_side_ownership_enforcement
    (uid did other : String) (db : List (String × Val)) (nowMs : ℚ)
    (iso : String) (huid : ¬ uid = "") (hdid : ¬ did = "") :
    (dbLookup db ("deviceOwners/" ++ did) = some (.str other) → ¬ other = uid →
      claimDeviceOwnership (some uid) (some did) ⟨db, [], nowMs, iso⟩
        = (resFail "Device is already claimed by another user" [],
           ⟨db, [], nowMs, iso⟩)) ∧
    (dbLookup db ("deviceOwners/" ++ did) = some (.str uid) →
      claimDeviceOwnership (some uid) (some did) ⟨db, [], nowMs, iso⟩
        = (resOk [("alreadyOwned", .bool true)], ⟨db, [], nowMs, iso⟩)) ∧
    (dbLookup db ("deviceOwners/" ++ did) = none →
      claimDeviceOwnership (some uid) (some did) ⟨db, [], nowMs, iso⟩
        = (resOk [],
           ⟨dbStore db ("deviceOwners/" ++ did) (.str uid), [], nowMs, iso⟩)) ∧
    (∀ dd : Val, objGet dd "deviceId" = some (.str did) →
      dbLookup db ("deviceOwners/" ++ did) = some (.str other) → ¬ other = uid →
      (addDevice (some uid) (some uid) (some dd) ⟨db, [], nowMs, iso⟩).1
        = .obj [("success", .bool false),
            ("error", .str "This device is already claimed by another user"),
            ("isDuplicate", .bool true)]) := by
  refine ⟨?_, ?_, ?_, ?_⟩
  · intro hlk hother
    simp [claimDeviceOwnership, claimDeviceOwnershipBody, jsCatch, fbGet,
      fbTick, strArgFalsy, huid, hdid, hlk, valEqStr, hother]
  · intro hlk
    simp [claimDeviceOwnership, claimDeviceOwnershipBody, jsCatch, fbGet,
      fbTick, strArgFalsy, huid, hdid, hlk, valEqStr]
  · intro hlk
    simp [claimDeviceOwnership, claimDeviceOwnershipBody, jsCatch, fbGet,
      fbTick, fbSet, strArgFalsy, huid, hdid, hlk, valEqStr]
  · intro dd hdd hlk hother
    have hddv : valArgFalsy (some dd) = false := by
      cases dd <;> simp [objGet, valArgFalsy, Val.truthy] at hdd ⊢
    have hdv : objGetOpt (some dd) "deviceId" = some (.str did) := by
      simp [objGetOpt, hdd]
    have h3 : valArgFalsy (some (Val.str did)) = false := by
      simp [valArgFalsy, Val.truthy, hdid]
    simp [addDevice, addDeviceBody, jsCatch, fbGet, fbTick, strArgFalsy,
      huid, hddv, hdv, h3, hlk, valEqStr, hother, validateCurrentUser,
      valToPathStr]

/-- C9 (counterexample): the staleness rule as claimed fails at
`lastSeen = 0`: the reading is more than 5 minutes before `now = 600000`,
the reported status is `'online'`, yet the derivation passes `'online'`
through because `if (deviceInfo.lastSeen)` treats `0` as absent. -/
theorem staleness_zero_lastSeen_counterexample :
    deriveActualStatus ⟨some "online", some 0⟩ 600000 = "online" ∧
    (0 : ℤ) < 600000 - 5 * 60 * 1000 ∧
    ¬ deriveActualStatus ⟨some "online", some 0⟩ 600000 = "offline" := by
  exact ⟨rfl, by decide, by decide⟩

/-- C9 (amended): for a truthy `lastSeen` (present and nonzero), a reported
status of `'online'` with `lastSeen` more than 5 minutes before now is
downgraded to `'offline'`; otherwise — `lastSeen` within 5 minutes, reported
status (defaulted by `status || 'offline'`) not `'online'`, or `lastSeen`
absent or zero — the defaulted reported status is passed through
unchanged. -/
theorem staleness_rule_amended (st : Option String) (ls : Option ℤ)
    (now t : ℤ) :
    (ls = some t → ¬ t = 0 → t < now - 5 * 60 * 1000 →
      jsOrStr st "offline" = "online" →
      deriveActualStatus ⟨st, ls⟩ now = "offline") ∧
    (ls = some t → ¬ t = 0 → ¬ t < now - 5 * 60 * 1000 →
      deriveActualStatus ⟨st, ls⟩ now = jsOrStr st "offline") ∧
    (ls = some t → ¬ t = 0 → ¬ jsOrStr st "offline" = "online" →
      deriveActualStatus ⟨st, ls⟩ now = jsOrStr st "offline") ∧
    ((ls = none ∨ ls = some 0) →
      deriveActualStatus ⟨st, ls⟩ now = jsOrStr st "offline") := by
  refine ⟨?_, ?_, ?_, ?_⟩
  · intro hls ht0 hstale hon
    simp [deriveActualStatus, hls, ht0, hon]
    omega
  · intro hls ht0 hfresh
    have hf2 : ¬ t < now - 300000 := by omega
    simp [deriveActualStatus, hls, ht0, hf2]
  · intro hls ht0 hnot
    simp [deriveActualStatus, hls, ht0, hnot]
  · intro h
    rcases h with h | h <;> simp [deriveActualStatus, h]

/-- Witness for the amended staleness rule at concrete inputs: a stale
nonzero `lastSeen` with status `'online'` is downgraded; a missing
`lastSeen` passes the status through. -/
theorem staleness_rule_amended_witness :
    deriveActualStatus ⟨some "online", some 1⟩ 600000 = "offline" ∧
    deriveActualStatus ⟨some "online", none⟩ 600000 = "online" := by
  constructor
  · exact (staleness_rule_amended (some "online") (some 1) 600000 1).1
      rfl (by decide) (by decide) rfl
  · exact (staleness_rule_amended (some "online") none 600000 1).2.2.2
      (Or.inl rfl)

/-- One step of `handleLowBatteryDetection` keeps the tracker invariant:
a stored level is strictly between 0 and 20. -/
theorem low_battery_inv_step (t r : Option ℚ)
    (ht : ∀ v, t = some v → 0 < v ∧ v < 20) :
    ∀ v, (handleLowBatteryDetection t r).2 = some v → 0 < v ∧ v < 20 := by
  intro v hv
  by_cases h1 : jsOrQ r 0 < 20 ∧ jsOrQ r 0 > 0
  · simp only [handleLowBatteryDetection, if_pos h1] at hv
    cases hb : (qEntryFalsy t || qEntryGt25 t) with
    | true => simp [hb] at hv; exact hv ▸ ⟨h1.2, h1.1⟩
    | false => simp [hb] at hv; exact ht v hv
  · simp only [handleLowBatteryDetection, if_neg h1] at hv
    by_cases h2 : jsOrQ r 0 ≥ 25
    · simp [if_pos h2] at hv
    · simp [if_neg h2] at hv
      exact ht v hv

/-- The low-battery tracker invariant holds after any stream of readings. -/
theorem lowBatteryProcess_inv (rs : List (Option ℚ)) :
    ∀ (t : Option ℚ), (∀ v, t = some v → 0 < v ∧ v < 20) →
    ∀ v, (lowBatteryProcess t rs).1 = some v → 0 < v ∧ v < 20 := by
  induction rs with
  | nil =>
    intro t ht v hv
    simp only [lowBatteryProcess] at hv
    exact ht v hv
  | cons r rest ih =>
    intro t ht v hv
    simp only [lowBatteryProcess] at hv
    exact ih (handleLowBatteryDetection t r).2 (low_battery_inv_step t r ht) v hv

/-- C1: low-battery hysteresis.  After any stream of battery readings: with
no tracked alert, a reading strictly between 0% and 20% creates an alert and
stores the level; while an alert is tracked, a reading in [20%, 25%) creates
no alert and leaves the tracker unchanged; a reading at or above 25% resets
the tracker; and while an alert is tracked no reading creates another
alert — only after a >= 25% recovery can a later sub-20% reading alert. -/
theorem claim_low_battery_hysteresis (rs : List (Option ℚ)) (r : Option ℚ) :
    (lowBatteryTrackerAfter rs = none → 0 < jsOrQ r 0 → jsOrQ r 0 < 20 →
      handleLowBatteryDetection (lowBatteryTrackerAfter rs) r
        = (true, some (jsOrQ r 0))) ∧
    (lowBatteryTrackerAfter rs ≠ none → 20 ≤ jsOrQ r 0 → jsOrQ r 0 < 25 →
      handleLowBatteryDetection (lowBatteryTrackerAfter rs) r
        = (false, lowBatteryTrackerAfter rs)) ∧
    (25 ≤ jsOrQ r 0 →
      (handleLowBatteryDetection (lowBatteryTrackerAfter rs) r).2 = none) ∧
    (lowBatteryTrackerAfter rs ≠ none →
      (handleLowBatteryDetection (lowBatteryTrackerAfter rs) r).1 = false) := by
  have hinv : ∀ v, lowBatteryTrackerAfter rs = some v → 0 < v ∧ v < 20 := by
    intro v hv
    exact lowBatteryProcess_inv rs none (by intro w hw; cases hw) v hv
  refine ⟨?_, ?_, ?_, ?_⟩
  · intro h0 hb1 hb2
    simp [handleLowBatteryDetection, h0, qEntryFalsy, hb1, hb2]
  · intro hne h20 h25
    have hc1 : ¬ (jsOrQ r 0 < 20 ∧ jsOrQ r 0 > 0) := by
      intro hc; linarith [hc.1]
    have hc2 : ¬ (jsOrQ r 0 ≥ 25) := not_le.mpr h25
    simp [handleLowBatteryDetection, hc1, hc2]
  · intro h25
    have hc1 : ¬ (jsOrQ r 0 < 20 ∧ jsOrQ r 0 > 0) := by
      intro hc; linarith [hc.1]
    simp [handleLowBatteryDetection, hc1, h25]
  · intro hne
    obtain ⟨v, hv⟩ := Option.ne_none_iff_exists.mp hne
    obtain ⟨hv0, hv20⟩ := hinv v hv.symm
    by_cases h1 : jsOrQ r 0 < 20 ∧ jsOrQ r 0 > 0
    · have hfalsy : qEntryFalsy (lowBatteryTrackerAfter rs) = false := by
        simp [qEntryFalsy, ← hv, ne_of_gt hv0]
      have hgt : qEntryGt25 (lowBatteryTrackerAfter rs) = false := by
        have : ¬ v > 25 := by linarith
        simp [qEntryGt25, ← hv, this]
      simp [handleLowBatteryDetection, h1, hfalsy, hgt]
    · simp only [handleLowBatteryDetection, if_neg h1]
      split <;> rfl

/-- Witness for C1 at concrete inputs: first alert from a fresh tracker, no
alert and no reset in [20, 25), reset at 30%, no re-alert while tracked. -/
theorem claim_low_battery_hysteresis_witness :
    handleLowBatteryDetection (lowBatteryTrackerAfter []) (some 10)
      = (true, some 10) ∧
    handleLowBatteryDetection (lowBatteryTrackerAfter [some 10]) (some 22)
      = (false, lowBatteryTrackerAfter [some 10]) ∧
    (handleLowBatteryDetection (lowBatteryTrackerAfter [some 10]) (some 30)).2
      = none ∧
    (handleLowBatteryDetection (lowBatteryTrackerAfter [some 10]) (some 5)).1
      = false := by
  refine ⟨?_, ?_, ?_, ?_⟩
  · exact (claim_low_battery_hysteresis [] (some 10)).1 rfl (by decide) (by decide)
  · exact (claim_low_battery_hysteresis [some 10] (some 22)).2.1 (by decide)
      (by decide) (by decide)
  · exact (claim_low_battery_hysteresis [some 10] (some 30)).2.2.1 (by decide)
  · exact (claim_low_battery_hysteresis [some 10] (some 5)).2.2.2 (by decide)

/-- One step of `handleLeakDetection` keeps the leak tracker invariant: a
stored alert timestamp is positive when the clock is. -/
theorem leak_inv_step (now : ℕ) (t : Option ℕ) (fr : Option ℚ)
    (vs : Option String) (hnow : 0 < now) (ht : ∀ v, t = some v → 0 < v) :
    ∀ v, (handleLeakDetection now t fr vs).2 = some v → 0 < v := by
  intro v hv
  by_cases h1 : jsOrQ fr 0 > leakFlowThreshold ∧ jsOrStr vs "UNKNOWN" = "CLOSED"
  · simp only [handleLeakDetection, if_pos h1] at hv
    cases hb : natEntryFalsy t with
    | true => simp [hb] at hv; exact hv ▸ hnow
    | false => simp [hb] at hv; exact ht v hv
  · simp only [handleLeakDetection, if_neg h1] at hv
    by_cases h2 : (natEntryFalsy t = false ∧
        (jsOrQ fr 0 ≤ leakFlowThreshold ∨ jsOrStr vs "UNKNOWN" = "OPEN"))
    · simp [h2] at hv
    · simp [h2] at hv
      exact ht v hv

/-- The leak tracker invariant holds after any stream of positively
timestamped readings. -/
theorem leakProcess_inv (rs : List LeakReading) :
    ∀ (t : Option ℕ), (∀ x ∈ rs, 0 < x.now) → (∀ v, t = some v → 0 < v) →
    ∀ v, (leakProcess t rs).1 = some v → 0 < v := by
  induction rs with
  | nil =>
    intro t _ ht v hv
    simp only [leakProcess] at hv
    exact ht v hv
  | cons r rest ih =>
    intro t hpos ht v hv
    simp only [leakProcess] at hv
    exact ih (handleLeakDetection r.now t r.flowRate r.valveState).2
      (fun x hx => hpos x (List.mem_cons_of_mem r hx))
      (leak_inv_step r.now t r.flowRate r.valveState
        (hpos r (List.mem_cons_self r rest)) ht) v hv

/-- The leak count step of `alertCounts` counts by the threshold
predicate. -/
theorem alertCounts_foldl_leak (ds : List DeviceView) :
    ∀ init : AlertCounts, (ds.foldl alertCountsStep init).leak
      = init.leak + ds.countP (fun d => specLeakFlag d.flowRate d.valveState) := by
  induction ds with
  | nil => intro init; simp
  | cons d rest ih =>
    intro init
    simp only [List.foldl_cons, List.countP_cons, ih]
    by_cases h : jsOrQ d.flowRate 0 > leakFlowThreshold ∧ jsOrStr d.valveState "UNKNOWN" = "CLOSED"
    · simp [alertCountsStep, h, specLeakFlag]
      omega
    · simp [alertCountsStep, h, specLeakFlag]

/-- C2: leak alert derivation.  After any stream of readings with positive
timestamps: an alert is created exactly at the onset of the leak condition
(`flowRate > 0.5` and `valveState === 'CLOSED'`) when no episode is tracked;
while an episode is tracked the condition creates no further alert and keeps
the tracker; a reading with `flowRate <= 0.5` or `valveState === 'OPEN'`
clears the tracker; any created alert implies the leak condition; and the
aggregate `alertCounts` leak count counts devices by the same predicate. -/
theorem claim_leak_alert_derivation (rs : List LeakReading)
    (hpos : ∀ x ∈ rs, 0 < x.now) (now : ℕ) (fr : Option ℚ)
    (vs : Option String) :
    (leakTrackerAfter rs = none → jsOrQ fr 0 > leakFlowThreshold →
      jsOrStr vs "UNKNOWN" = "CLOSED" →
      handleLeakDetection now (leakTrackerAfter rs) fr vs = (true, some now)) ∧
    (leakTrackerAfter rs ≠ none → jsOrQ fr 0 > leakFlowThreshold →
      jsOrStr vs "UNKNOWN" = "CLOSED" →
      handleLeakDetection now (leakTrackerAfter rs) fr vs
        = (false, leakTrackerAfter rs)) ∧
    (leakTrackerAfter rs ≠ none →
      (jsOrQ fr 0 ≤ leakFlowThreshold ∨ jsOrStr vs "UNKNOWN" = "OPEN") →
      (handleLeakDetection now (leakTrackerAfter rs) fr vs).2 = none) ∧
    (∀ t2 : Option ℕ, (handleLeakDetection now t2 fr vs).1 = true →
      jsOrQ fr 0 > leakFlowThreshold ∧ jsOrStr vs "UNKNOWN" = "CLOSED") ∧
    (∀ ds : List DeviceView, (alertCounts ds).leak
      = ds.countP (fun d => specLeakFlag d.flowRate d.valveState)) := by
  have hinv : ∀ v, leakTrackerAfter rs = some v → 0 < v := by
    intro v hv
    exact leakProcess_inv rs none hpos (by intro w hw; cases hw) v hv
  refine ⟨?_, ?_, ?_, ?_, ?_⟩
  · intro h0 hfr hvs
    simp [handleLeakDetection, h0, natEntryFalsy, hfr, hvs]
  · intro hne hfr hvs
    obtain ⟨v, hv⟩ := Option.ne_none_iff_exists.mp hne
    have hfalsy : natEntryFalsy (leakTrackerAfter rs) = false := by
      simp [natEntryFalsy, ← hv, Nat.pos_iff_ne_zero.mp (hinv v hv.symm)]
    simp [handleLeakDetection, hfr, hvs, hfalsy]
  · intro hne hclear
    obtain ⟨v, hv⟩ := Option.ne_none_iff_exists.mp hne
    have hfalsy : natEntryFalsy (leakTrackerAfter rs) = false := by
      simp [natEntryFalsy, ← hv, Nat.pos_iff_ne_zero.mp (hinv v hv.symm)]
    have hc1 : ¬ (jsOrQ fr 0 > leakFlowThreshold ∧ jsOrStr vs "UNKNOWN" = "CLOSED") := by
      rintro ⟨hgt, hcl⟩
      rcases hclear with hle | hop
      · linarith
      · exact absurd (hcl.symm.trans hop) (by decide)
    simp [handleLeakDetection, hc1, hfalsy, hclear]
  · intro t2 halert
    by_cases h1 : jsOrQ fr 0 > leakFlowThreshold ∧ jsOrStr vs "UNKNOWN" = "CLOSED"
    · exact h1
    · exfalso
      simp only [handleLeakDetection, if_neg h1] at halert
      revert halert
      split <;> simp
  · intro ds
    have := alertCounts_foldl_leak ds ⟨0, 0, 0⟩
    simpa [alertCounts] using this

/-- Witness for C2 at concrete inputs: onset alert, no second alert within
an episode, clearing on valve OPEN, alert implies the condition, and the
aggregate count on a two-device list. -/
theorem claim_leak_alert_derivation_witness :
    handleLeakDetection 7 (leakTrackerAfter []) (some 1) (some "CLOSED")
      = (true, some 7) ∧
    handleLeakDetection 9 (leakTrackerAfter [⟨5, some 1, some "CLOSED"⟩])
        (some 1) (some "CLOSED")
      = (false, leakTrackerAfter [⟨5, some 1, some "CLOSED"⟩]) ∧
    (handleLeakDetection 9 (leakTrackerAfter [⟨5, some 1, some "CLOSED"⟩])
        (some 1) (some "OPEN")).2 = none ∧
    (jsOrQ (some 1) 0 > leakFlowThreshold ∧
      jsOrStr (some "CLOSED") "UNKNOWN" = "CLOSED") ∧
    (alertCounts [⟨some 50, none, some 1, some "CLOSED", some "online"⟩,
        ⟨some 50, none, some 1, some "OPEN", some "online"⟩]).leak
      = List.countP (fun d : DeviceView => specLeakFlag d.flowRate d.valveState)
          ([⟨some 50, none, some 1, some "CLOSED", some "online"⟩,
            ⟨some 50, none, some 1, some "OPEN", some "online"⟩] :
            List DeviceView) := by
  have hpos1 : ∀ x ∈ ([⟨5, some 1, some "CLOSED"⟩] : List LeakReading),
      0 < x.now := by decide
  refine ⟨?_, ?_, ?_, ?_, ?_⟩
  · exact (claim_leak_alert_derivation [] (by decide) 7 (some 1)
      (some "CLOSED")).1 rfl (by decide) (by decide)
  · exact (claim_leak_alert_derivation [⟨5, some 1, some "CLOSED"⟩] hpos1 9
      (some 1) (some "CLOSED")).2.1 (by decide) (by decide) (by decide)
  · exact (claim_leak_alert_derivation [⟨5, some 1, some "CLOSED"⟩] hpos1 9
      (some 1) (some "OPEN")).2.2.1 (by decide) (Or.inr (by decide))
  · exact (claim_leak_alert_derivation [] (by decide) 7 (some 1)
      (some "CLOSED")).2.2.2.1 none (by decide)
  · exact (claim_leak_alert_derivation [] (by decide) 7 (some 1)
      (some "CLOSED")).2.2.2.2 _

/-- C6: the valve-control operation is guarded by argument validation and
the ownership record, and applies exactly the requested boolean when
authorized. -/
theorem controlValve_ownership_guard (auth : Option String)
    (deviceId : Option String) (shouldOpen : Option Val) (uid did : String)
    (b : Bool) (db : List (String × Val)) (nowMs : ℚ) (iso : String) :
    ((strArgFalsy deviceId || !isBoolArg shouldOpen) = true →
      controlValve auth deviceId shouldOpen ⟨db, [], nowMs, iso⟩
        = (resFail "Device ID and valve state (boolean) are required" [],
           ⟨db, [], nowMs, iso⟩)) ∧
    (auth = some uid → deviceId = some did → ¬ did = "" →
      isBoolArg shouldOpen = true →
      ¬ optValEqStr (dbLookup db ("deviceOwners/" ++ did)) uid = true →
      controlValve auth deviceId shouldOpen ⟨db, [], nowMs, iso⟩
        = (resFail "You do not own this device" [], ⟨db, [], nowMs, iso⟩)) ∧
    (auth = some uid → deviceId = some did → ¬ did = "" →
      shouldOpen = some (.bool b) →
      optValEqStr (dbLookup db ("deviceOwners/" ++ did)) uid = true →
      controlValve auth deviceId shouldOpen ⟨db, [], nowMs, iso⟩
        = (resOk [],
           ⟨dbStore db ("devices/" ++ did ++ "/commands/valveControl") (.bool b),
            [], nowMs, iso⟩)) := by
  refine ⟨?_, ?_, ?_⟩
  · intro h
    simp [controlValve, controlValveBody, jsCatch, h]
  · intro ha hd hdid hbool hown
    subst ha hd
    simp [controlValve, controlValveBody, jsCatch, fbGet, fbTick, strArgFalsy,
      hdid, hbool, validateCurrentUser, hown]
  · intro ha hd hdid hb hown
    subst ha hd hb
    simp [controlValve, controlValveBody, jsCatch, fbGet, fbTick, fbSet,
      strArgFalsy, hdid, isBoolArg, validateCurrentUser, hown]

/-- Witness for C6 at concrete inputs: missing arguments fail; a foreign
owner record fails without writing; the owner's request writes the
boolean. -/
theorem controlValve_ownership_guard_witness :
    controlValve (some "u1") none none ⟨[], [], 0, ""⟩
      = (resFail "Device ID and valve state (boolean) are required" [],
         ⟨[], [], 0, ""⟩) ∧
    controlValve (some "u1") (some "D") (some (.bool true))
        ⟨[("deviceOwners/D", .str "u2")], [], 0, ""⟩
      = (resFail "You do not own this device" [],
         ⟨[("deviceOwners/D", .str "u2")], [], 0, ""⟩) ∧
    controlValve (some "u1") (some "D") (some (.bool true))
        ⟨[("deviceOwners/D", .str "u1")], [], 0, ""⟩
      = (resOk [],
         ⟨[("deviceOwners/D", .str "u1"),
           ("devices/D/commands/valveControl", .bool true)], [], 0, ""⟩) := by
  refine ⟨?_, ?_, ?_⟩
  · exact (controlValve_ownership_guard (some "u1") none none "u1" "D" true
      [] 0 "").1 (by decide)
  · exact (controlValve_ownership_guard (some "u1") (some "D")
      (some (.bool true)) "u1" "D" true
      [("deviceOwners/D", .str "u2")] 0 "").2.1 rfl rfl (by decide) (by decide)
      (by decide)
  · exact (controlValve_ownership_guard (some "u1") (some "D")
      (some (.bool true)) "u1" "D" true
      [("deviceOwners/D", .str "u1")] 0 "").2.2 rfl rfl (by decide) rfl
      (by decide)

/-! ### Listener-registry lemmas -/

/-- Reading the key just written. -/
theorem regGet_set_self (reg : Registry) (k : List Char) (tok : ℕ) :
    regGet (regSet reg k tok) k = some tok := by
  induction reg with
  | nil => simp [regSet, regGet]
  | cons e rest ih =>
    by_cases h : e.1 = k
    · simp [regSet, h, regGet]
    · simp [regSet, h, regGet, ih]

/-- Writing one key leaves the others unchanged. -/
theorem regGet_set_other (reg : Registry) (k : List Char) (tok : ℕ)
    (k2 : List Char) (h : ¬ k2 = k) :
    regGet (regSet reg k tok) k2 = regGet reg k2 := by
  have hk2 : ¬ k = k2 := fun hh => h hh.symm
  induction reg with
  | nil => simp [regSet, regGet, hk2]
  | cons e rest ih =>
    by_cases he : e.1 = k
    · have he2 : ¬ e.1 = k2 := by rw [he]; exact hk2
      simp [regSet, he, regGet, hk2, he2]
    · simp only [regSet, if_neg he]
      by_cases he2 : e.1 = k2
      · simp [regGet, he2]
      · simp [regGet, he2, ih]

/-- Reading the key just deleted. -/
theorem regGet_del_self (reg : Registry) (k : List Char) :
    regGet (regDel reg k) k = none := by
  induction reg with
  | nil => simp [regDel, regGet]
  | cons e rest ih =>
    by_cases h : e.1 = k
    · simp [regDel, h, ih]
    · simp [regDel, h, regGet, ih]

/-- Deleting one key leaves the others unchanged. -/
theorem regGet_del_other (reg : Registry) (k k2 : List Char) (h : ¬ k2 = k) :
    regGet (regDel reg k) k2 = regGet reg k2 := by
  have hk2 : ¬ k = k2 := fun hh => h hh.symm
  induction reg with
  | nil => simp [regDel]
  | cons e rest ih =>
    by_cases he : e.1 = k
    · have he2 : ¬ e.1 = k2 := by rw [he]; exact hk2
      simp [regDel, he, regGet, he2, ih, hk2]
    · simp only [regDel, if_neg he]
      by_cases he2 : e.1 = k2
      · simp [regGet, he2]
      · simp [regGet, he2, ih]

/-- Deletion never makes an absent key present. -/
theorem regGet_del_none (reg : Registry) (k k2 : List Char)
    (h : regGet reg k2 = none) : regGet (regDel reg k) k2 = none := by
  by_cases hk : k2 = k
  · subst hk; exact regGet_del_self reg k2
  · rw [regGet_del_other reg k k2 hk]; exact h

/-- Writing never makes a present key absent. -/
theorem regGet_set_isSome (reg : Registry) (k : List Char) (tok : ℕ)
    (k2 : List Char) (h : (regGet reg k2).isSome = true) :
    (regGet (regSet reg k tok) k2).isSome = true := by
  by_cases hk : k2 = k
  · subst hk; simp [regGet_set_self]
  · rw [regGet_set_other reg k tok k2 hk]; exact h

/-- A readable key is among the registry's keys. -/
theorem regGet_some_mem (reg : Registry) (k : List Char) (tk : ℕ)
    (h : regGet reg k = some tk) : k ∈ reg.map Prod.fst := by
  induction reg with
  | nil => simp [regGet] at h
  | cons e rest ih =>
    by_cases he : e.1 = k
    · simp [← he]
    · simp only [regGet, if_neg he] at h
      simp [ih h]

/-- Entries after a write come from the old registry or are the write. -/
theorem regSet_mem (reg : Registry) (k : List Char) (tok : ℕ)
    (kt : List Char × ℕ) (h : kt ∈ regSet reg k tok) :
    kt ∈ reg ∨ kt = (k, tok) := by
  induction reg with
  | nil => simp [regSet] at h; simp [h]
  | cons e rest ih =>
    by_cases he : e.1 = k
    · simp only [regSet, if_pos he] at h
      rcases List.mem_cons.mp h with h | h
      · exact Or.inr h
      · exact Or.inl (List.mem_cons_of_mem e h)
    · simp only [regSet, if_neg he] at h
      rcases List.mem_cons.mp h with h | h
      · exact Or.inl (h ▸ List.mem_cons_self e rest)
      · rcases ih h with h2 | h2
        · exact Or.inl (List.mem_cons_of_mem e h2)
        · exact Or.inr h2

/-! ### Key-string lemmas -/

/-- `split` of a separator-free string. -/
theorem jsSplit_no_sep (sep : Char) (xs : List Char)
    (h : xs.contains sep = false) : jsSplit sep xs = [xs] := by
  induction xs with
  | nil => rfl
  | cons c rest ih =>
    simp only [List.contains_cons, Bool.or_eq_false_iff] at h
    have hc : ¬ c = sep := by
      intro hh
      subst hh
      simp at h
    rw [jsSplit, ih h.2]
    simp [hc]

/-- `split` past a separator-free prefix. -/
theorem jsSplit_append (sep : Char) (xs ys : List Char)
    (h : xs.contains sep = false) :
    jsSplit sep (xs ++ sep :: ys) = xs :: jsSplit sep ys := by
  induction xs with
  | nil => simp [jsSplit]
  | cons c rest ih =>
    simp only [List.contains_cons, Bool.or_eq_false_iff] at h
    have hc : ¬ c = sep := by
      intro hh
      subst hh
      simp at h
    rw [List.cons_append, jsSplit, ih h.2]
    simp [hc]

/-- Splitting on an underscore-free id parses a data key back to the id. -/
theorem parse_dataKey (id : List Char) (h : noUnderscore id = true) :
    (jsSplit '_' (dataKey id)).getD 1 [] = id := by
  have h1 : ("device".toList).contains '_' = false := by decide
  have h2 : id.contains '_' = false := by simpa [noUnderscore] using h
  have e : dataKey id
      = "device".toList ++ '_' :: (id ++ '_' :: "data".toList) := rfl
  rw [e, jsSplit_append '_' _ _ h1, jsSplit_append '_' _ _ h2]
  rfl

/-- Splitting on an underscore-free id parses an info key back to the id. -/
theorem parse_infoKey (id : List Char) (h : noUnderscore id = true) :
    (jsSplit '_' (infoKey id)).getD 1 [] = id := by
  have h1 : ("device".toList).contains '_' = false := by decide
  have h2 : id.contains '_' = false := by simpa [noUnderscore] using h
  have e : infoKey id
      = "device".toList ++ '_' :: (id ++ '_' :: "info".toList) := rfl
  rw [e, jsSplit_append '_' _ _ h1, jsSplit_append '_' _ _ h2]
  rfl

/-- Data keys are injective. -/
theorem dataKey_inj (id1 id2 : List Char) (h : dataKey id1 = dataKey id2) :
    id1 = id2 := by
  simp only [dataKey] at h
  have h2 : "device_".toList ++ id1 = "device_".toList ++ id2 :=
    List.append_cancel_right h
  exact List.append_cancel_left h2

/-- Info keys are injective. -/
theorem infoKey_inj (id1 id2 : List Char) (h : infoKey id1 = infoKey id2) :
    id1 = id2 := by
  simp only [infoKey] at h
  have h2 : "device_".toList ++ id1 = "device_".toList ++ id2 :=
    List.append_cancel_right h
  exact List.append_cancel_left h2

/-- A data key never equals an info key of underscore-free ids. -/
theorem dataKey_ne_infoKey (id1 id2 : List Char) (h1 : noUnderscore id1 = true)
    (h2 : noUnderscore id2 = true) : ¬ dataKey id1 = infoKey id2 := by
  intro h
  have hd : ("device".toList).contains '_' = false := by decide
  have hi1 : id1.contains '_' = false := by simpa [noUnderscore] using h1
  have hi2 : id2.contains '_' = false := by simpa [noUnderscore] using h2
  have e1 : dataKey id1
      = "device".toList ++ '_' :: (id1 ++ '_' :: "data".toList) := rfl
  have e2 : infoKey id2
      = "device".toList ++ '_' :: (id2 ++ '_' :: "info".toList) := rfl
  have hsp := congrArg (jsSplit '_') h
  rw [e1, e2, jsSplit_append '_' _ _ hd, jsSplit_append '_' _ _ hd,
    jsSplit_append '_' _ _ hi1, jsSplit_append '_' _ _ hi2,
    jsSplit_no_sep '_' _ (by decide), jsSplit_no_sep '_' _ (by decide)] at hsp
  simp at hsp

/-- A list is a prefix of itself followed by anything. -/
theorem isPrefixOf_append_self (xs ys : List Char) :
    xs.isPrefixOf (xs ++ ys) = true := by
  induction xs with
  | nil => simp [List.isPrefixOf]
  | cons a as ih => simp [List.isPrefixOf, ih]

/-- Every data key carries the `device_` prefix. -/
theorem devicePrefix_dataKey (id : List Char) :
    ("device_".toList).isPrefixOf (dataKey id) = true :=
  isPrefixOf_append_self "device_".toList (id ++ "_data".toList)

/-- Every info key carries the `device_` prefix. -/
theorem devicePrefix_infoKey (id : List Char) :
    ("device_".toList).isPrefixOf (infoKey id) = true :=
  isPrefixOf_append_self "device_".toList (id ++ "_info".toList)

/-- The claimed-devices key is not a data key. -/
theorem claimedKey_ne_dataKey (id : List Char) :
    ¬ claimedDevicesKey = dataKey id := by
  intro h
  have h2 := devicePrefix_dataKey id
  rw [← h] at h2
  exact absurd h2 (by decide)

/-- The claimed-devices key is not an info key. -/
theorem claimedKey_ne_infoKey (id : List Char) :
    ¬ claimedDevicesKey = infoKey id := by
  intro h
  have h2 := devicePrefix_infoKey id
  rw [← h] at h2
  exact absurd h2 (by decide)

/-- An id's data key never equals its own info key. -/
theorem dataKey_ne_infoKey_self (j : List Char) : ¬ dataKey j = infoKey j := by
  intro h
  simp only [dataKey, infoKey] at h
  have h2 : "_data".toList = "_info".toList := List.append_cancel_left h
  exact absurd h2 (by decide)

/-- Writing a well-formed key preserves registry well-formedness. -/
theorem RegWF_regSet (reg : Registry) (k : List Char) (tok : ℕ)
    (hWF : RegWF reg)
    (hk : (¬ ("device_".toList.isPrefixOf k = true)) ∨
      ∃ id, noUnderscore id = true ∧ (k = dataKey id ∨ k = infoKey id)) :
    RegWF (regSet reg k tok) := by
  intro kt hmem
  rcases regSet_mem reg k tok kt hmem with h | h
  · exact hWF kt h
  · subst h
    exact hk

/-- Listener creation preserves registry well-formedness. -/
theorem RegWF_addDL (ids : List (List Char)) :
    ∀ (reg : Registry) (ctr : ℕ), RegWF reg →
    (∀ id ∈ ids, noUnderscore id = true) →
    RegWF (addDeviceListeners reg ctr ids).1 := by
  induction ids with
  | nil =>
    intro reg ctr hWF _
    simpa [addDeviceListeners] using hWF
  | cons j rest ih =>
    intro reg ctr hWF hids
    have hjU : noUnderscore j = true := hids j (List.mem_cons_self j rest)
    have hrest : ∀ id ∈ rest, noUnderscore id = true :=
      fun id hm => hids id (List.mem_cons_of_mem j hm)
    by_cases hp : (regGet reg (dataKey j)).isSome = true
    · simp only [addDeviceListeners, hp, if_true]
      exact ih reg ctr hWF hrest
    · simp only [addDeviceListeners, hp, if_false, Bool.false_eq_true]
      refine ih _ _ ?_ hrest
      refine RegWF_regSet _ _ _ (RegWF_regSet _ _ _ hWF ?_) ?_
      · exact Or.inr ⟨j, hjU, Or.inl rfl⟩
      · exact Or.inr ⟨j, hjU, Or.inr rfl⟩

/-- Listener creation does not touch keys belonging to no listed id. -/
theorem addDL_get_other (ids : List (List Char)) :
    ∀ (reg : Registry) (ctr : ℕ) (k : List Char),
    (∀ id ∈ ids, ¬ k = dataKey id ∧ ¬ k = infoKey id) →
    regGet (addDeviceListeners reg ctr ids).1 k = regGet reg k := by
  induction ids with
  | nil => intro reg ctr k _; rfl
  | cons j rest ih =>
    intro reg ctr k hk
    have hrest : ∀ id ∈ rest, ¬ k = dataKey id ∧ ¬ k = infoKey id :=
      fun id hm => hk id (List.mem_cons_of_mem j hm)
    have hj := hk j (List.mem_cons_self j rest)
    by_cases hp : (regGet reg (dataKey j)).isSome = true
    · simp only [addDeviceListeners, hp, if_true]
      exact ih reg ctr k hrest
    · simp only [addDeviceListeners, hp, if_false, Bool.false_eq_true]
      rw [ih _ _ k hrest, regGet_set_other _ _ _ _ hj.2,
        regGet_set_other _ _ _ _ hj.1]

/-- Listener creation never removes a present key. -/
theorem addDL_mono (ids : List (List Char)) :
    ∀ (reg : Registry) (ctr : ℕ) (k : List Char),
    (regGet reg k).isSome = true →
    (regGet (addDeviceListeners reg ctr ids).1 k).isSome = true := by
  induction ids with
  | nil => intro reg ctr k h; exact h
  | cons j rest ih =>
    intro reg ctr k h
    by_cases hp : (regGet reg (dataKey j)).isSome = true
    · simp only [addDeviceListeners, hp, if_true]
      exact ih reg ctr k h
    · simp only [addDeviceListeners, hp, if_false, Bool.false_eq_true]
      exact ih _ _ k (regGet_set_isSome _ _ _ _ (regGet_set_isSome _ _ _ _ h))

/-- Listener creation does not re-register an already registered device: the
stored data subscription token is kept. -/
theorem addDL_keeps_data (ids : List (List Char)) :
    ∀ (reg : Registry) (ctr : ℕ) (id : List Char) (tk : ℕ),
    noUnderscore id = true → (∀ j ∈ ids, noUnderscore j = true) →
    regGet reg (dataKey id) = some tk →
    regGet (addDeviceListeners reg ctr ids).1 (dataKey id) = some tk := by
  induction ids with
  | nil => intro reg ctr id tk _ _ h; exact h
  | cons j rest ih =>
    intro reg ctr id tk hid hids h
    have hjU : noUnderscore j = true := hids j (List.mem_cons_self j rest)
    have hrest : ∀ x ∈ rest, noUnderscore x = true :=
      fun x hm => hids x (List.mem_cons_of_mem j hm)
    by_cases hp : (regGet reg (dataKey j)).isSome = true
    · simp only [addDeviceListeners, hp, if_true]
      exact ih reg ctr id tk hid hrest h
    · have hne : ¬ dataKey id = dataKey j := by
        intro hh
        rw [← hh] at hp
        exact hp (by simp [h])
      have hne2 : ¬ dataKey id = infoKey j := dataKey_ne_infoKey id j hid hjU
      simp only [addDeviceListeners, hp, if_false, Bool.false_eq_true]
      refine ih _ _ id tk hid hrest ?_
      rw [regGet_set_other _ _ _ _ hne2, regGet_set_other _ _ _ _ hne]
      exact h

/-- After listener creation, every listed id has a data listener. -/
theorem addDL_data_present (ids : List (List Char)) :
    ∀ (reg : Registry) (ctr : ℕ) (id : List Char), id ∈ ids →
    (regGet (addDeviceListeners reg ctr ids).1 (dataKey id)).isSome = true := by
  induction ids with
  | nil => intro reg ctr id h; cases h
  | cons j rest ih =>
    intro reg ctr id hmem
    by_cases hp : (regGet reg (dataKey j)).isSome = true
    · simp only [addDeviceListeners, hp, if_true]
      rcases List.mem_cons.mp hmem with hj | hj
      · subst hj
        exact addDL_mono rest reg ctr _ hp
      · exact ih reg ctr id hj
    · simp only [addDeviceListeners, hp, if_false, Bool.false_eq_true]
      rcases List.mem_cons.mp hmem with hj | hj
      · subst hj
        refine addDL_mono rest _ _ _ ?_
        rw [regGet_set_other _ _ _ _ (fun hh => dataKey_ne_infoKey_self id hh),
          regGet_set_self]
        rfl
      · exact ih _ _ id hj

/-- Listener creation preserves registry pairing. -/
theorem addDL_paired (ids : List (List Char)) :
    ∀ (reg : Registry) (ctr : ℕ), RegPaired reg →
    (∀ j ∈ ids, noUnderscore j = true) →
    RegPaired (addDeviceListeners reg ctr ids).1 := by
  induction ids with
  | nil => intro reg ctr hPair _; exact hPair
  | cons j rest ih =>
    intro reg ctr hPair hids
    have hjU : noUnderscore j = true := hids j (List.mem_cons_self j rest)
    have hrest : ∀ x ∈ rest, noUnderscore x = true :=
      fun x hm => hids x (List.mem_cons_of_mem j hm)
    by_cases hp : (regGet reg (dataKey j)).isSome = true
    · simp only [addDeviceListeners, hp, if_true]
      exact ih reg ctr hPair hrest
    · simp only [addDeviceListeners, hp, if_false, Bool.false_eq_true]
      refine ih _ _ ?_ hrest
      intro id2 hid2
      by_cases hj : id2 = j
      · subst hj
        rw [regGet_set_other _ _ _ _ (fun hh => dataKey_ne_infoKey_self id2 hh),
          regGet_set_self, regGet_set_self]
        simp
      · have hd : ¬ dataKey id2 = dataKey j := fun hh => hj (dataKey_inj _ _ hh)
        have hi : ¬ infoKey id2 = infoKey j := fun hh => hj (infoKey_inj _ _ hh)
        have hdi : ¬ dataKey id2 = infoKey j := dataKey_ne_infoKey _ _ hid2 hjU
        have hid : ¬ infoKey id2 = dataKey j :=
          fun hh => dataKey_ne_infoKey j id2 hjU hid2 hh.symm
        rw [regGet_set_other _ _ _ _ hdi, regGet_set_other _ _ _ _ hd,
          regGet_set_other _ _ _ _ hi, regGet_set_other _ _ _ _ hid]
        exact hPair id2 hid2

/-- Stale-device removal never makes an absent key present. -/
theorem removeStale_none (claimed ps : List (List Char)) :
    ∀ (reg : Registry) (k : List Char), regGet reg k = none →
    regGet (removeStaleLoop claimed ps reg) k = none := by
  induction ps with
  | nil => intro reg k h; exact h
  | cons j rest ih =>
    intro reg k h
    simp only [removeStaleLoop]
    apply ih
    by_cases hc : claimed.contains j = true
    · rw [if_pos hc]
      exact h
    · rw [if_neg hc]
      exact regGet_del_none _ _ _ (regGet_del_none _ _ _ h)

/-- Stale-device removal does not touch keys of ids that are still claimed
or unrelated to the parsed list. -/
theorem removeStale_other (claimed ps : List (List Char)) :
    ∀ (reg : Registry) (k : List Char),
    (∀ j ∈ ps, claimed.contains j = true ∨
      (¬ k = dataKey j ∧ ¬ k = infoKey j)) →
    regGet (removeStaleLoop claimed ps reg) k = regGet reg k := by
  induction ps with
  | nil => intro reg k _; rfl
  | cons j rest ih =>
    intro reg k hk
    have hrest : ∀ x ∈ rest, claimed.contains x = true ∨
        (¬ k = dataKey x ∧ ¬ k = infoKey x) :=
      fun x hm => hk x (List.mem_cons_of_mem j hm)
    simp only [removeStaleLoop]
    by_cases hc : claimed.contains j = true
    · rw [if_pos hc]
      exact ih reg k hrest
    · rw [if_neg hc]
      rcases hk j (List.mem_cons_self j rest) with h | ⟨hd, hi⟩
      · exact absurd h hc
      · rw [ih _ k hrest, regGet_del_other _ _ _ hi, regGet_del_other _ _ _ hd]

/-- Stale-device removal deletes the data and info keys of every parsed id
that is no longer claimed. -/
theorem removeStale_deletes (claimed ps : List (List Char)) :
    ∀ (reg : Registry) (j0 k : List Char),
    j0 ∈ ps → claimed.contains j0 = false →
    (k = dataKey j0 ∨ k = infoKey j0) →
    regGet (removeStaleLoop claimed ps reg) k = none := by
  induction ps with
  | nil => intro reg j0 k h; cases h
  | cons j rest ih =>
    intro reg j0 k hmem hc hk
    simp only [removeStaleLoop]
    rcases List.mem_cons.mp hmem with hj | hj
    · subst hj
      rw [if_neg (fun hh => Bool.false_ne_true (hc ▸ hh))]
      apply removeStale_none
      rcases hk with hk | hk
      · subst hk
        exact regGet_del_none _ _ _ (regGet_del_self _ _)
      · subst hk
        exact regGet_del_self _ _
    · exact ih _ j0 k hj hc hk

/-- A registered device-prefixed key contributes its parsed id to
`currentDeviceIds`. -/
theorem mem_currentDeviceIds (reg : Registry) (k : List Char) (tk : ℕ)
    (hpref : ("device_".toList).isPrefixOf k = true)
    (h : regGet reg k = some tk) :
    (jsSplit '_' k).getD 1 [] ∈ currentDeviceIds reg := by
  unfold currentDeviceIds
  exact List.mem_map_of_mem _
    (List.mem_filter.mpr ⟨regGet_some_mem reg k tk h, hpref⟩)

/-- In a well-formed registry every parsed id is underscore-free. -/
theorem currentDeviceIds_noUnderscore (reg : Registry) (hWF : RegWF reg) :
    ∀ j ∈ currentDeviceIds reg, noUnderscore j = true := by
  intro j hj
  unfold currentDeviceIds at hj
  rcases List.mem_map.mp hj with ⟨k, hk, rfl⟩
  rcases List.mem_filter.mp hk with ⟨hkmem, hkpref⟩
  rcases List.mem_map.mp hkmem with ⟨kt, hktmem, rfl⟩
  rcases hWF kt hktmem with h | ⟨id, hidU, hcase⟩
  · exact absurd hkpref h
  · rcases hcase with h | h <;> rw [h]
    · rw [parse_dataKey id hidU]; exact hidU
    · rw [parse_infoKey id hidU]; exact hidU

/-- After processing a claimed-devices snapshot over a well-formed paired
registry of underscore-free ids, the data and info listeners of an
underscore-free id are registered exactly when the id is claimed. -/
theorem processSnapshot_presence (claimed : List (List Char)) (reg : Registry)
    (ctr : ℕ) (hWF : RegWF reg) (hPair : RegPaired reg)
    (hclaimed : ∀ id ∈ claimed, noUnderscore id = true) (id : List Char)
    (hid : noUnderscore id = true) :
    ((regGet (processClaimedSnapshot (some claimed) reg ctr).1 (dataKey id)).isSome
      = true ↔ id ∈ claimed) ∧
    ((regGet (processClaimedSnapshot (some claimed) reg ctr).1 (infoKey id)).isSome
      = true ↔ id ∈ claimed) := by
  have hfin : (processClaimedSnapshot (some claimed) reg ctr).1
      = removeStaleLoop claimed
          (currentDeviceIds (addDeviceListeners reg ctr claimed).1)
          (addDeviceListeners reg ctr claimed).1 := rfl
  have hWFadd : RegWF (addDeviceListeners reg ctr claimed).1 :=
    RegWF_addDL claimed reg ctr hWF hclaimed
  have hPairAdd : RegPaired (addDeviceListeners reg ctr claimed).1 :=
    addDL_paired claimed reg ctr hPair hclaimed
  have hpsU : ∀ j ∈ currentDeviceIds (addDeviceListeners reg ctr claimed).1,
      noUnderscore j = true :=
    currentDeviceIds_noUnderscore _ hWFadd
  by_cases hmem : id ∈ claimed
  · have hcont : claimed.contains id = true := by simp [hmem]
    have hdata : (regGet (addDeviceListeners reg ctr claimed).1
        (dataKey id)).isSome = true :=
      addDL_data_present claimed reg ctr id hmem
    have hinfo : (regGet (addDeviceListeners reg ctr claimed).1
        (infoKey id)).isSome = true :=
      (hPairAdd id hid).mp hdata
    have hotherD : ∀ j ∈ currentDeviceIds (addDeviceListeners reg ctr claimed).1,
        claimed.contains j = true ∨
        (¬ dataKey id = dataKey j ∧ ¬ dataKey id = infoKey j) := by
      intro j hj
      by_cases hcj : claimed.contains j = true
      · exact Or.inl hcj
      · refine Or.inr ⟨?_, ?_⟩
        · intro hh
          exact hcj ((dataKey_inj _ _ hh) ▸ hcont)
        · exact dataKey_ne_infoKey id j hid (hpsU j hj)
    have hotherI : ∀ j ∈ currentDeviceIds (addDeviceListeners reg ctr claimed).1,
        claimed.contains j = true ∨
        (¬ infoKey id = dataKey j ∧ ¬ infoKey id = infoKey j) := by
      intro j hj
      by_cases hcj : claimed.contains j = true
      · exact Or.inl hcj
      · refine Or.inr ⟨?_, ?_⟩
        · intro hh
          exact dataKey_ne_infoKey j id (hpsU j hj) hid hh.symm
        · intro hh
          exact hcj ((infoKey_inj _ _ hh) ▸ hcont)
    rw [hfin, removeStale_other _ _ _ _ hotherD]
    constructor
    · exact iff_of_true hdata hmem
    · rw [removeStale_other _ _ _ _ hotherI]
      exact iff_of_true hinfo hmem
  · have hcont : claimed.contains id = false := by simp [hmem]
    have haddD : regGet (addDeviceListeners reg ctr claimed).1 (dataKey id)
        = regGet reg (dataKey id) := by
      refine addDL_get_other claimed reg ctr (dataKey id) ?_
      intro j hjmem
      refine ⟨?_, ?_⟩
      · intro hh
        exact hmem ((dataKey_inj _ _ hh) ▸ hjmem)
      · exact dataKey_ne_infoKey id j hid (hclaimed j hjmem)
    have haddI : regGet (addDeviceListeners reg ctr claimed).1 (infoKey id)
        = regGet reg (infoKey id) := by
      refine addDL_get_other claimed reg ctr (infoKey id) ?_
      intro j hjmem
      refine ⟨?_, ?_⟩
      · intro hh
        exact dataKey_ne_infoKey j id (hclaimed j hjmem) hid hh.symm
      · intro hh
        exact hmem ((infoKey_inj _ _ hh) ▸ hjmem)
    rw [hfin]
    constructor
    · cases hD : regGet (addDeviceListeners reg ctr claimed).1 (dataKey id) with
      | none =>
        rw [removeStale_none _ _ _ _ hD]
        simp [hmem]
      | some tk =>
        have hmemIds : id ∈ currentDeviceIds (addDeviceListeners reg ctr claimed).1 := by
          have := mem_currentDeviceIds _ (dataKey id) tk (devicePrefix_dataKey id) hD
          rwa [parse_dataKey id hid] at this
        rw [removeStale_deletes claimed _ _ id (dataKey id) hmemIds hcont
          (Or.inl rfl)]
        simp [hmem]
    · cases hI : regGet (addDeviceListeners reg ctr claimed).1 (infoKey id) with
      | none =>
        rw [removeStale_none _ _ _ _ hI]
        simp [hmem]
      | some tk =>
        have hmemIds : id ∈ currentDeviceIds (addDeviceListeners reg ctr claimed).1 := by
          have := mem_currentDeviceIds _ (infoKey id) tk (devicePrefix_infoKey id) hI
          rwa [parse_infoKey id hid] at this
        rw [removeStale_deletes claimed _ _ id (infoKey id) hmemIds hcont
          (Or.inr rfl)]
        simp [hmem]

/-- Processing a snapshot keeps the existing data subscription token of a
still-claimed device: the listener is not re-created. -/
theorem processSnapshot_keeps_token (claimed : List (List Char))
    (reg : Registry) (ctr : ℕ) (id : List Char) (tk : ℕ) (hWF : RegWF reg)
    (hclaimed : ∀ j ∈ claimed, noUnderscore j = true)
    (hid : noUnderscore id = true) (hmem : id ∈ claimed)
    (h : regGet reg (dataKey id) = some tk) :
    regGet (processClaimedSnapshot (some claimed) reg ctr).1 (dataKey id) = some tk := by
  have hfin : (processClaimedSnapshot (some claimed) reg ctr).1
      = removeStaleLoop claimed
          (currentDeviceIds (addDeviceListeners reg ctr claimed).1)
          (addDeviceListeners reg ctr claimed).1 := rfl
  have hWFadd : RegWF (addDeviceListeners reg ctr claimed).1 :=
    RegWF_addDL claimed reg ctr hWF hclaimed
  have hpsU : ∀ j ∈ currentDeviceIds (addDeviceListeners reg ctr claimed).1,
      noUnderscore j = true :=
    currentDeviceIds_noUnderscore _ hWFadd
  have hcont : claimed.contains id = true := by simp [hmem]
  have haddD := addDL_keeps_data claimed reg ctr id tk hid hclaimed h
  have hotherD : ∀ j ∈ currentDeviceIds (addDeviceListeners reg ctr claimed).1,
      claimed.contains j = true ∨
      (¬ dataKey id = dataKey j ∧ ¬ dataKey id = infoKey j) := by
    intro j hj
    by_cases hcj : claimed.contains j = true
    · exact Or.inl hcj
    · refine Or.inr ⟨?_, ?_⟩
      · intro hh
        exact hcj ((dataKey_inj _ _ hh) ▸ hcont)
      · exact dataKey_ne_infoKey id j hid (hpsU j hj)
  rw [hfin, removeStale_other _ _ _ _ hotherD]
  exact haddD

/-- Processing a snapshot leaves the claimed-devices root listener
untouched. -/
theorem processSnapshot_claimedKey (claimed : List (List Char))
    (reg : Registry) (ctr : ℕ) :
    regGet (processClaimedSnapshot (some claimed) reg ctr).1 claimedDevicesKey
      = regGet reg claimedDevicesKey := by
  have hfin : (processClaimedSnapshot (some claimed) reg ctr).1
      = removeStaleLoop claimed
          (currentDeviceIds (addDeviceListeners reg ctr claimed).1)
          (addDeviceListeners reg ctr claimed).1 := rfl
  have h1 : regGet (addDeviceListeners reg ctr claimed).1 claimedDevicesKey
      = regGet reg claimedDevicesKey :=
    addDL_get_other claimed reg ctr claimedDevicesKey
      (fun id _ => ⟨claimedKey_ne_dataKey id, claimedKey_ne_infoKey id⟩)
  rw [hfin, removeStale_other _ _ _ _
    (fun j _ => Or.inr ⟨claimedKey_ne_dataKey j, claimedKey_ne_infoKey j⟩), h1]

/-- C10 (counterexample): the registry consistency claim fails on the code
in two ways.  After claiming device `A_B` and then processing a snapshot
claiming only `C`, the `A_B` data listener is still registered, because the
cleanup parses `device_A_B_data` with `key.split('_')[1]` to `A` instead of
`A_B`.  And when the snapshot does not exist (last device removed), the
callback returns early and keeps every listener, here the stale listeners
of the underscore-free device `X`. -/
theorem listener_registry_underscore_counterexample :
    regGet (processClaimedSnapshot (some ["C".toList])
        (processClaimedSnapshot (some ["A_B".toList])
          [(claimedDevicesKey, 0)] 1).1
        (processClaimedSnapshot (some ["A_B".toList])
          [(claimedDevicesKey, 0)] 1).2).1
      (dataKey "A_B".toList) = some 1 ∧
    ("A_B".toList ∉ (["C".toList] : List (List Char))) ∧
    (jsSplit '_' (dataKey "A_B".toList)).getD 1 [] = "A".toList ∧
    processClaimedSnapshot none
        [(claimedDevicesKey, 0), (dataKey "X".toList, 1),
         (infoKey "X".toList, 2)] 3
      = ([(claimedDevicesKey, 0), (dataKey "X".toList, 1),
          (infoKey "X".toList, 2)], 3) := by
  exact ⟨by decide, by decide, by decide, rfl⟩

/-- C10 (amended): for underscore-free device ids, after each processing of
an existing claimed-devices snapshot over a well-formed paired registry, the
registry holds a data listener and an info listener exactly for the claimed
devices; an already-registered device keeps its existing subscription (no
duplicate registration); and the root claimed-devices listener is untouched.
When the snapshot does not exist the callback returns early and the registry
is left entirely unchanged, so stale per-device listeners persist.  The
restriction to underscore-free ids is forced by the `key.split('_')[1]`
parsing of the removed-device cleanup; the exists restriction by the
early return of DeviceDataContext.js lines 150-155. -/
theorem listener_registry_sync_amended (claimed : List (List Char))
    (reg : Registry) (ctr : ℕ) (hWF : RegWF reg) (hPair : RegPaired reg)
    (hclaimed : ∀ id ∈ claimed, noUnderscore id = true) :
    (∀ id, noUnderscore id = true →
      ((regGet (processClaimedSnapshot (some claimed) reg ctr).1 (dataKey id)).isSome
        = true ↔ id ∈ claimed) ∧
      ((regGet (processClaimedSnapshot (some claimed) reg ctr).1 (infoKey id)).isSome
        = true ↔ id ∈ claimed)) ∧
    (∀ id tk, id ∈ claimed → noUnderscore id = true →
      regGet reg (dataKey id) = some tk →
      regGet (processClaimedSnapshot (some claimed) reg ctr).1 (dataKey id)
        = some tk) ∧
    (regGet (processClaimedSnapshot (some claimed) reg ctr).1 claimedDevicesKey
      = regGet reg claimedDevicesKey) ∧
    (∀ (reg2 : Registry) (ctr2 : ℕ),
      processClaimedSnapshot none reg2 ctr2 = (reg2, ctr2)) := by
  refine ⟨?_, ?_, ?_, ?_⟩
  · intro id hid
    exact processSnapshot_presence claimed reg ctr hWF hPair hclaimed id hid
  · intro id tk hmem hid h
    exact processSnapshot_keeps_token claimed reg ctr id tk hWF hclaimed hid
      hmem h
  · exact processSnapshot_claimedKey claimed reg ctr
  · intro reg2 ctr2
    rfl

/-- Witness for the amended registry-consistency claim on a concrete
registry holding only the root listener, with claimed set containing the
underscore-free id `AB`, and for the early return on a missing snapshot. -/
theorem listener_registry_sync_amended_witness :
    ((regGet (processClaimedSnapshot (some ["AB".toList])
        [(claimedDevicesKey, 0)] 1).1 (dataKey "AB".toList)).isSome = true
      ↔ "AB".toList ∈ ["AB".toList]) ∧
    ((regGet (processClaimedSnapshot (some ["AB".toList])
        [(claimedDevicesKey, 0)] 1).1 (infoKey "AB".toList)).isSome = true
      ↔ "AB".toList ∈ ["AB".toList]) ∧
    regGet (processClaimedSnapshot (some ["AB".toList])
        [(claimedDevicesKey, 0)] 1).1 claimedDevicesKey
      = regGet [(claimedDevicesKey, 0)] claimedDevicesKey ∧
    processClaimedSnapshot none [(dataKey "AB".toList, 7)] 4
      = ([(dataKey "AB".toList, 7)], 4) := by
  have hWF : RegWF [(claimedDevicesKey, 0)] := by
    intro kt hm
    simp only [List.mem_singleton] at hm
    subst hm
    exact Or.inl (by decide)
  have hPair : RegPaired [(claimedDevicesKey, 0)] := by
    intro id _
    simp [regGet, claimedKey_ne_dataKey id, claimedKey_ne_infoKey id]
  have hclaimed : ∀ id ∈ ["AB".toList], noUnderscore id = true := by decide
  have h := listener_registry_sync_amended ["AB".toList]
    [(claimedDevicesKey, 0)] 1 hWF hPair hclaimed
  exact ⟨(h.1 "AB".toList (by decide)).1, (h.1 "AB".toList (by decide)).2,
    h.2.2.1, h.2.2.2 [(dataKey "AB".toList, 7)] 4⟩

/-- C7: app-lifecycle listener handling.  On a transition from
`inactive`/`background` to `active` with a signed-in user, every registered
listener is unsubscribed and the registry is rebuilt around a fresh
claimed-devices root listener, from which the next snapshot re-establishes
the full per-device listener set; on any transition into
`inactive`/`background` the registry is left unchanged and nothing is
unsubscribed. -/
theorem lifecycle_teardown_recreate (u : String) (st : AppCtx)
    (next : AppStateV) (tok ctr : ℕ) (claimed : List (List Char))
    (hclaimed : ∀ id ∈ claimed, noUnderscore id = true) :
    (matchInactiveBackground st.appState = true → next = .active →
      handleAppStateChange (some u) next tok st
        = (st.listeners, ⟨.active, [(claimedDevicesKey, tok)]⟩)) ∧
    (matchInactiveBackground next = true → ∀ user : Option String,
      (handleAppStateChange user next tok st).1 = [] ∧
      (handleAppStateChange user next tok st).2.listeners = st.listeners) ∧
    (matchInactiveBackground st.appState = true →
      ∀ id, noUnderscore id = true →
      ((regGet (processClaimedSnapshot (some claimed)
          (handleAppStateChange (some u) .active tok st).2.listeners ctr).1
          (dataKey id)).isSome = true ↔ id ∈ claimed) ∧
      ((regGet (processClaimedSnapshot (some claimed)
          (handleAppStateChange (some u) .active tok st).2.listeners ctr).1
          (infoKey id)).isSome = true ↔ id ∈ claimed) ∧
      (regGet (processClaimedSnapshot (some claimed)
          (handleAppStateChange (some u) .active tok st).2.listeners ctr).1
          claimedDevicesKey = some tok)) := by
  have hres : matchInactiveBackground st.appState = true →
      handleAppStateChange (some u) AppStateV.active tok st
        = (st.listeners, ⟨.active, [(claimedDevicesKey, tok)]⟩) := by
    intro hbg
    simp [handleAppStateChange, hbg, cleanupAllListeners, setupRootListener,
      regSet]
  refine ⟨?_, ?_, ?_⟩
  · intro hbg hnext
    subst hnext
    exact hres hbg
  · intro hnext user
    have hne : ¬ next = AppStateV.active := by
      intro hh
      subst hh
      simp [matchInactiveBackground] at hnext
    constructor <;>
      · cases user <;> simp [handleAppStateChange, hne]
  · intro hbg id hid
    rw [hres hbg]
    have hWF : RegWF [(claimedDevicesKey, tok)] := by
      intro kt hm
      simp only [List.mem_singleton] at hm
      subst hm
      exact Or.inl
        (show ¬ ("device_".toList.isPrefixOf claimedDevicesKey = true) by decide)
    have hPair : RegPaired [(claimedDevicesKey, tok)] := by
      intro id2 _
      simp [regGet, claimedKey_ne_dataKey id2, claimedKey_ne_infoKey id2]
    have hpres := processSnapshot_presence claimed [(claimedDevicesKey, tok)]
      ctr hWF hPair hclaimed id hid
    refine ⟨hpres.1, hpres.2, ?_⟩
    rw [processSnapshot_claimedKey claimed [(claimedDevicesKey, tok)] ctr]
    simp [regGet]

/-- Witness for C7 at concrete inputs: resuming from background tears down a
one-listener registry and re-creates the root listener; backgrounding keeps
the registry; the follow-up snapshot for claimed id `AB` registers exactly
its two listeners. -/
theorem lifecycle_teardown_recreate_witness :
    handleAppStateChange (some "u") .active 9
        ⟨.background, [(dataKey "X".toList, 5)]⟩
      = ([(dataKey "X".toList, 5)], ⟨.active, [(claimedDevicesKey, 9)]⟩) ∧
    (handleAppStateChange (some "u") .background 9
        ⟨.active, [(dataKey "X".toList, 5)]⟩).2.listeners
      = [(dataKey "X".toList, 5)] ∧
    ((regGet (processClaimedSnapshot (some ["AB".toList])
        (handleAppStateChange (some "u") .active 9
          ⟨.background, [(dataKey "X".toList, 5)]⟩).2.listeners 1).1
        (dataKey "AB".toList)).isSome = true ↔ "AB".toList ∈ ["AB".toList]) := by
  have hclaimed : ∀ id ∈ ["AB".toList], noUnderscore id = true := by decide
  have h := lifecycle_teardown_recreate "u"
    ⟨.background, [(dataKey "X".toList, 5)]⟩ .active 9 1 ["AB".toList] hclaimed
  refine ⟨h.1 rfl rfl, ?_, (h.2.2 rfl "AB".toList (by decide)).1⟩
  have h2 := lifecycle_teardown_recreate "u"
    ⟨.active, [(dataKey "X".toList, 5)]⟩ .background 9 1 ["AB".toList] hclaimed
  exact (h2.2.1 rfl (some "u")).2

/-! ### Result-envelope lemmas for the deviceService operations -/

/-- Every failure envelope is well-formed. -/
theorem envOkB_resFail (m : String) (extra : List (String × Val)) :
    envOkB (resFail m extra) = true := rfl

/-- Every success envelope is well-formed. -/
theorem envOkB_resOk (extra : List (String × Val)) :
    envOkB (resOk extra) = true := rfl

/-- A well-formed envelope that is not successful carries a string error. -/
theorem envOkB_error_of_fail (r : Val) (h : envOkB r = true)
    (hf : fieldTruthy r "success" = false) :
    ∃ m, objGet r "error" = some (.str m) := by
  unfold envOkB at h
  unfold fieldTruthy at hf
  cases hS : objGet r "success" with
  | none =>
    rw [hS] at h
    simp at h
  | some w =>
    rw [hS] at h hf
    cases w with
    | bool b =>
      cases b with
      | true => simp [Val.truthy] at hf
      | false =>
        cases hE : objGet r "error" with
        | none => rw [hE] at h; simp at h
        | some v =>
          rw [hE] at h
          cases v with
          | str m => exact ⟨m, rfl⟩
          | num q => simp at h
          | bool b2 => simp at h
          | null => simp at h
          | arr l => simp at h
          | obj fs => simp at h
    | str s2 => simp at h
    | num q => simp at h
    | null => simp at h
    | arr l => simp at h
    | obj fs => simp at h

/-- Envelope of `claimDeviceOwnership`. -/
theorem env_claimDeviceOwnership (userId deviceId : Option String)
    (s : FbState) : envOkB (claimDeviceOwnership userId deviceId s).1 = true := by
  rcases hres : claimDeviceOwnershipBody userId deviceId s with ⟨e, s2⟩
  unfold claimDeviceOwnership
  rw [hres]
  cases e with
  | error e => rfl
  | ok v =>
    unfold claimDeviceOwnershipBody at hres
    repeat' (first | split at hres | dsimp only at hres)
    all_goals simp only [Prod.mk.injEq, Except.ok.injEq] at hres
    all_goals rw [← hres.1]
    all_goals rfl

/-- Envelope of `checkDeviceOwnership`. -/
theorem env_checkDeviceOwnership (auth deviceId : Option String)
    (s : FbState) : envOkB (checkDeviceOwnership auth deviceId s).1 = true := by
  rcases hres : checkDeviceOwnershipBody auth deviceId s with ⟨e, s2⟩
  unfold checkDeviceOwnership
  rw [hres]
  cases e with
  | error e => rfl
  | ok v =>
    unfold checkDeviceOwnershipBody at hres
    repeat' (first | split at hres | dsimp only at hres)
    all_goals simp only [Prod.mk.injEq, Except.ok.injEq] at hres
    all_goals rw [← hres.1]
    all_goals rfl

/-- Envelope of `controlValve`. -/
theorem env_controlValve (auth deviceId : Option String)
    (shouldOpen : Option Val) (s : FbState) :
    envOkB (controlValve auth deviceId shouldOpen s).1 = true := by
  rcases hres : controlValveBody auth deviceId shouldOpen s with ⟨e, s2⟩
  unfold controlValve
  rw [hres]
  cases e with
  | error e => rfl
  | ok v =>
    unfold controlValveBody at hres
    repeat' (first | split at hres | dsimp only at hres)
    all_goals simp only [Prod.mk.injEq, Except.ok.injEq] at hres
    all_goals rw [← hres.1]
    all_goals rfl

/-- Envelope of `resetTotalLitres`. -/
theorem env_resetTotalLitres (auth deviceId : Option String) (s : FbState) :
    envOkB (resetTotalLitres auth deviceId s).1 = true := by
  rcases hres : resetTotalLitresBody auth deviceId s with ⟨e, s2⟩
  unfold resetTotalLitres
  rw [hres]
  cases e with
  | error e => rfl
  | ok v =>
    unfold resetTotalLitresBody at hres
    repeat' (first | split at hres | dsimp only at hres)
    all_goals simp only [Prod.mk.injEq, Except.ok.injEq] at hres
    all_goals rw [← hres.1]
    all_goals rfl

/-- Envelope of `removeDeviceOwnership`. -/
theorem env_removeDeviceOwnership (auth deviceId : Option String)
    (s : FbState) : envOkB (removeDeviceOwnership auth deviceId s).1 = true := by
  rcases hres : removeDeviceOwnershipBody auth deviceId s with ⟨e, s2⟩
  unfold removeDeviceOwnership
  rw [hres]
  cases e with
  | error e => rfl
  | ok v =>
    unfold removeDeviceOwnershipBody at hres
    repeat' (first | split at hres | dsimp only at hres)
    all_goals simp only [Prod.mk.injEq, Except.ok.injEq] at hres
    all_goals rw [← hres.1]
    all_goals rfl

/-- Envelope of `testDeviceConnection`. -/
theorem env_testDeviceConnection (auth deviceId : Option String)
    (s : FbState) : envOkB (testDeviceConnection auth deviceId s).1 = true := by
  rcases hres : testDeviceConnectionBody auth deviceId s with ⟨e, s2⟩
  unfold testDeviceConnection
  rw [hres]
  cases e with
  | error e => rfl
  | ok v =>
    unfold testDeviceConnectionBody at hres
    repeat' (first | split at hres | dsimp only at hres)
    all_goals simp only [Prod.mk.injEq, Except.ok.injEq] at hres
    all_goals rw [← hres.1]
    all_goals rfl

/-- Envelope of `getDeviceData`. -/
theorem env_getDeviceData (auth deviceId : Option String) (s : FbState) :
    envOkB (getDeviceData auth deviceId s).1 = true := by
  rcases hres : getDeviceDataBody auth deviceId s with ⟨e, s2⟩
  unfold getDeviceData
  rw [hres]
  cases e with
  | error e => rfl
  | ok v =>
    unfold getDeviceDataBody at hres
    repeat' (first | split at hres | dsimp only at hres)
    all_goals simp only [Prod.mk.injEq, Except.ok.injEq] at hres
    all_goals rw [← hres.1]
    all_goals rfl

/-- Envelope of `getDeviceInfo`. -/
theorem env_getDeviceInfo (auth deviceId : Option String) (s : FbState) :
    envOkB (getDeviceInfo auth deviceId s).1 = true := by
  rcases hres : getDeviceInfoBody auth deviceId s with ⟨e, s2⟩
  unfold getDeviceInfo
  rw [hres]
  cases e with
  | error e => rfl
  | ok v =>
    unfold getDeviceInfoBody at hres
    repeat' (first | split at hres | dsimp only at hres)
    all_goals simp only [Prod.mk.injEq, Except.ok.injEq] at hres
    all_goals rw [← hres.1]
    all_goals rfl

/-- Envelope of `addDevice`. -/
theorem env_addDevice (auth userId : Option String) (deviceData : Option Val)
    (s : FbState) : envOkB (addDevice auth userId deviceData s).1 = true := by
  rcases hres : addDeviceBody auth userId deviceData s with ⟨e, s2⟩
  unfold addDevice
  rw [hres]
  cases e with
  | error e => rfl
  | ok v =>
    unfold addDeviceBody at hres
    repeat' (first | split at hres | dsimp only at hres)
    all_goals simp only [Prod.mk.injEq, Except.ok.injEq] at hres
    all_goals rw [← hres.1]
    all_goals rfl

/-- Envelope of `getUserDevices`, with the devices array present and empty on
failure. -/
theorem env_getUserDevices (auth userId : Option String) (s : FbState) :
    envOkB (getUserDevices auth userId s).1 = true ∧
    hasArr "devices" (getUserDevices auth userId s).1 = true ∧
    failImpliesEmpty "devices" (getUserDevices auth userId s).1 = true := by
  rcases hres : getUserDevicesBody auth userId s with ⟨e, s2⟩
  unfold getUserDevices
  rw [hres]
  cases e with
  | error e => exact ⟨rfl, rfl, rfl⟩
  | ok v =>
    unfold getUserDevicesBody at hres
    repeat' (first | split at hres | dsimp only at hres)
    all_goals simp only [Prod.mk.injEq, Except.ok.injEq] at hres
    all_goals rw [← hres.1]
    all_goals exact ⟨rfl, rfl, rfl⟩

/-- Envelope of `updateDevice`. -/
theorem env_updateDevice (auth userId deviceId : Option String)
    (updates : Option (List (String × Val))) (s : FbState) :
    envOkB (updateDevice auth userId deviceId updates s).1 = true := by
  rcases hres : updateDeviceBody auth userId deviceId updates s with ⟨e, s2⟩
  unfold updateDevice
  rw [hres]
  cases e with
  | error e => rfl
  | ok v =>
    unfold updateDeviceBody at hres
    repeat' (first | split at hres | dsimp only at hres)
    all_goals simp only [Prod.mk.injEq, Except.ok.injEq] at hres
    all_goals rw [← hres.1]
    all_goals rfl

/-- Envelope of `removeDevice`. -/
theorem env_removeDevice (auth userId deviceId : Option String)
    (s : FbState) : envOkB (removeDevice auth userId deviceId s).1 = true := by
  rcases hres : removeDeviceBody auth userId deviceId s with ⟨e, s2⟩
  unfold removeDevice
  rw [hres]
  cases e with
  | error e => rfl
  | ok v =>
    unfold removeDeviceBody at hres
    repeat' (first | split at hres | dsimp only at hres)
    all_goals simp only [Prod.mk.injEq, Except.ok.injEq] at hres
    all_goals rw [← hres.1]
    all_goals rfl

/-- Envelope of `getDeviceHistory`, with the data array present and empty on
failure. -/
theorem env_getDeviceHistory (auth deviceId : Option String)
    (timeRange : String) (s : FbState) :
    envOkB (getDeviceHistory auth deviceId timeRange s).1 = true ∧
    hasArr "data" (getDeviceHistory auth deviceId timeRange s).1 = true ∧
    failImpliesEmpty "data" (getDeviceHistory auth deviceId timeRange s).1
      = true := by
  rcases hres : getDeviceHistoryBody auth deviceId timeRange s with ⟨e, s2⟩
  unfold getDeviceHistory
  rw [hres]
  cases e with
  | error e => exact ⟨rfl, rfl, rfl⟩
  | ok v =>
    unfold getDeviceHistoryBody at hres
    repeat' (first | split at hres | dsimp only at hres)
    all_goals simp only [Prod.mk.injEq, Except.ok.injEq] at hres
    all_goals rw [← hres.1]
    all_goals exact ⟨rfl, rfl, rfl⟩

/-- Envelope of `getAnalyticsData`, with the data array present and empty on
failure. -/
theorem env_getAnalyticsData (auth deviceId : Option String)
    (timeRange : String) (s : FbState) :
    envOkB (getAnalyticsData auth deviceId timeRange s).1 = true ∧
    hasArr "data" (getAnalyticsData auth deviceId timeRange s).1 = true ∧
    failImpliesEmpty "data" (getAnalyticsData auth deviceId timeRange s).1
      = true := by
  rcases hres : getAnalyticsDataBody auth deviceId timeRange s with ⟨e, s2⟩
  unfold getAnalyticsData
  rw [hres]
  cases e with
  | error e => exact ⟨rfl, rfl, rfl⟩
  | ok v =>
    unfold getAnalyticsDataBody at hres
    repeat' (first | split at hres | dsimp only at hres)
    all_goals simp only [Prod.mk.injEq, Except.ok.injEq] at hres
    all_goals rw [← hres.1]
    all_goals exact ⟨rfl, rfl, rfl⟩

/-- Envelope of `migrateExistingDevices`. -/
theorem env_migrateExistingDevices (auth userId : Option String)
    (s : FbState) : envOkB (migrateExistingDevices auth userId s).1 = true := by
  rcases hres : migrateExistingDevicesBody auth userId s with ⟨e, s2⟩
  unfold migrateExistingDevices
  rw [hres]
  cases e with
  | error e => rfl
  | ok v =>
    unfold migrateExistingDevicesBody at hres
    repeat' (first | split at hres | dsimp only at hres)
    all_goals simp only [Prod.mk.injEq, Except.ok.injEq] at hres
    all_goals rw [← hres.1]
    all_goals try rfl
    rename_i hf
    have hf2 : fieldTruthy (getUserDevices auth userId s).1 "success" = false := by
      simpa using hf
    obtain ⟨m, hm⟩ := envOkB_error_of_fail _
      (env_getUserDevices auth userId s).1 hf2
    rw [hm]
    rfl

/-- C8: result-envelope totality of the deviceService operations.  For every
input — missing arguments, unauthenticated caller, arbitrary database
contents, and every pattern of injected backend errors — each operation
resolves to an object with a boolean `success` field, carrying a string
error message whenever `success` is false, and the list-returning operations
additionally carry an array that is empty on failure. -/
theorem deviceService_result_envelope :
    (∀ (auth userId : Option String) (deviceData : Option Val) (s : FbState),
      envOkB (addDevice auth userId deviceData s).1 = true) ∧
    (∀ (auth userId : Option String) (s : FbState),
      envOkB (getUserDevices auth userId s).1 = true ∧
      hasArr "devices" (getUserDevices auth userId s).1 = true ∧
      failImpliesEmpty "devices" (getUserDevices auth userId s).1 = true) ∧
    (∀ (auth userId deviceId : Option String)
      (updates : Option (List (String × Val))) (s : FbState),
      envOkB (updateDevice auth userId deviceId updates s).1 = true) ∧
    (∀ (auth deviceId : Option String) (shouldOpen : Option Val) (s : FbState),
      envOkB (controlValve auth deviceId shouldOpen s).1 = true) ∧
    (∀ (auth deviceId : Option String) (s : FbState),
      envOkB (resetTotalLitres auth deviceId s).1 = true) ∧
    (∀ (auth userId deviceId : Option String) (s : FbState),
      envOkB (removeDevice auth userId deviceId s).1 = true) ∧
    (∀ (auth deviceId : Option String) (timeRange : String) (s : FbState),
      envOkB (getDeviceHistory auth deviceId timeRange s).1 = true ∧
      hasArr "data" (getDeviceHistory auth deviceId timeRange s).1 = true ∧
      failImpliesEmpty "data" (getDeviceHistory auth deviceId timeRange s).1
        = true) ∧
    (∀ (auth deviceId : Option String) (timeRange : String) (s : FbState),
      envOkB (getAnalyticsData auth deviceId timeRange s).1 = true ∧
      hasArr "data" (getAnalyticsData auth deviceId timeRange s).1 = true ∧
      failImpliesEmpty "data" (getAnalyticsData auth deviceId timeRange s).1
        = true) ∧
    (∀ (auth deviceId : Option String) (s : FbState),
      envOkB (getDeviceData auth deviceId s).1 = true) ∧
    (∀ (auth deviceId : Option String) (s : FbState),
      envOkB (getDeviceInfo auth deviceId s).1 = true) ∧
    (∀ (auth userId : Option String) (s : FbState),
      envOkB (migrateExistingDevices auth userId s).1 = true) ∧
    (∀ (auth deviceId : Option String) (s : FbState),
      envOkB (removeDeviceOwnership auth deviceId s).1 = true) ∧
    (∀ (auth deviceId : Option String) (s : FbState),
      envOkB (testDeviceConnection auth deviceId s).1 = true) :=
  ⟨env_addDevice, env_getUserDevices, env_updateDevice, env_controlValve,
   env_resetTotalLitres, env_removeDevice, env_getDeviceHistory,
   env_getAnalyticsData, env_getDeviceData, env_getDeviceInfo,
   env_migrateExistingDevices, env_removeDeviceOwnership,
   env_testDeviceConnection⟩

/-- Witness for C8 at concrete inputs: a call with missing arguments and a
call whose backend read rejects both resolve to well-formed envelopes. -/
theorem deviceService_result_envelope_witness :
    envOkB (controlValve none none none ⟨[], [], 0, ""⟩).1 = true ∧
    envOkB (getUserDevices (some "u") (some "u")
      ⟨[], [some "boom"], 0, ""⟩).1 = true ∧
    failImpliesEmpty "devices" (getUserDevices (some "u") (some "u")
      ⟨[], [some "boom"], 0, ""⟩).1 = true := by
  refine ⟨?_, ?_, ?_⟩
  · exact deviceService_result_envelope.2.2.2.1 none none none ⟨[], [], 0, ""⟩
  · exact (deviceService_result_envelope.2.1 (some "u") (some "u")
      ⟨[], [some "boom"], 0, ""⟩).1
  · exact (deviceService_result_envelope.2.1 (some "u") (some "u")
      ⟨[], [some "boom"], 0, ""⟩).2.2

/-- Witness for the amended C4 at concrete inputs: a fresh claim writes the
ownership record, a repeated claim is a no-op success, and `addDevice`
rejects a device owned by another user. -/
theorem client_side_ownership_enforcement_witness :
    claimDeviceOwnership (some "u1") (some "D") ⟨[], [], 0, ""⟩
      = (resOk [], ⟨[("deviceOwners/D", .str "u1")], [], 0, ""⟩) ∧
    claimDeviceOwnership (some "u1") (some "D")
        ⟨[("deviceOwners/D", .str "u1")], [], 0, ""⟩
      = (resOk [("alreadyOwned", .bool true)],
         ⟨[("deviceOwners/D", .str "u1")], [], 0, ""⟩) ∧
    (addDevice (some "u2") (some "u2") (some (.obj [("deviceId", .str "D")]))
        ⟨[("deviceOwners/D", .str "u1")], [], 0, ""⟩).1
      = .obj [("success", .bool false),
          ("error", .str "This device is already claimed by another user"),
          ("isDuplicate", .bool true)] := by
  refine ⟨?_, ?_, ?_⟩
  · exact (client_side_ownership_enforcement "u1" "D" "x" [] 0 ""
      (by decide) (by decide)).2.2.1 rfl
  · exact (client_side_ownership_enforcement "u1" "D" "x"
      [("deviceOwners/D", .str "u1")] 0 "" (by decide) (by decide)).2.1 rfl
  · exact (client_side_ownership_enforcement "u2" "D" "u1"
      [("deviceOwners/D", .str "u1")] 0 "" (by decide) (by decide)).2.2.2
      (.obj [("deviceId", .str "D")]) rfl rfl (by decide)

end KK
